import Mathlib

/-!
# pkg/kube/watcher.go

A shallow embedding of `WatchForNodePortServices`, the loop that watches
Kubernetes for NodePort services and asks a listener tracker for a listener on
127.0.0.1 for each of their node ports, together with its helpers
`getClientConfig` and `isTimeout`.

The loop talks to collaborators that live outside the file (the kubeconfig
loader, the client constructor, the service watch with its two channels, the
listener tracker and the clock).  Their answers are the input of the model:
every pass through the `for` loop consumes one `World`, which says what each
collaborator answers in that pass.  What the loop does to the outside is
recorded, in order, in the `trace` of the `Machine`.
-/

namespace Kube

/-! ## Errors -/

/-- One error value of a Go error chain.  `notExist` says that `errors.Is`
matches the value against `fs.ErrNotExist`; `timeout` is `some b` when the
value has a method `Timeout() bool`, `b` being what the method reports. -/
structure ErrNode where
  msg : String
  notExist : Bool
  timeout : Option Bool
deriving DecidableEq, Repr

/-- A non-nil Go `error`: the value itself and the values reached from it by
`Unwrap`, outermost first.  A Go variable of type `error` is an
`Option GoError`, `none` being `nil`. -/
structure GoError where
  top : ErrNode
  inner : List ErrNode
deriving DecidableEq, Repr

/-- The chain `errors.Is` and `errors.As` walk. -/
def GoError.chain (e : GoError) : List ErrNode :=
  e.top :: e.inner

/-- The call `fmt.Errorf("...: %w", err)`: a fresh value that wraps `err`; it
is not `fs.ErrNotExist` and has no `Timeout` method. -/
def fmtErrorf (msg : String) (err : GoError) : GoError :=
  { top := { msg := msg, notExist := false, timeout := none }, inner := err.chain }

/-- The call `errors.Is(err, fs.ErrNotExist)`. -/
def errorsIsNotExist (err : GoError) : Bool :=
  err.chain.any (fun n => n.notExist)

/-- The call `errors.As(err, &timeoutError)` for a target of type
`interface{ Timeout() bool }`: the first value of the chain that has the
method, `none` when there is none (the target is then left `nil`). -/
def errorsAsTimeout (err : GoError) : Option ErrNode :=
  err.chain.find? (fun n => n.timeout.isSome)

/-- A Go run-time panic. -/
inductive Panic where
  | nilDereference
deriving DecidableEq, Repr

/-- The method call `timeoutError.Timeout()` on an interface value: a nil
interface value panics. -/
def callTimeout : Option ErrNode → Except Panic Bool
  | none => Except.error Panic.nilDereference
  | some n =>
    match n.timeout with
    | some b => Except.ok b
    | none => Except.error Panic.nilDereference

/-- Source `isTimeout` (watcher.go:167-175). -/
def isTimeout (err : GoError) : Except Panic Bool :=
  let timeoutError := errorsAsTimeout err
  if !timeoutError.isSome then
    callTimeout timeoutError
  else
    Except.ok false

/-! ## Services and events -/

/-- An IP address as `net.IPv4(a, b, c, d)` builds it. -/
structure IP where
  a : Nat
  b : Nat
  c : Nat
  d : Nat
deriving DecidableEq, Repr

/-- The constructor `net.IPv4`. -/
def IPv4 (a b c d : Nat) : IP :=
  { a := a, b := b, c := c, d := d }

/-- One entry of `corev1.ServiceSpec.Ports`; `NodePort` is an `int32`, which
the loop widens to `int`. -/
structure ServicePort where
  NodePort : Int
deriving DecidableEq, Repr

/-- The fields of `corev1.ServiceSpec` the loop reads; `Type_` is the field
`Type`. -/
structure ServiceSpec where
  Type_ : String
  Ports : List ServicePort
deriving DecidableEq, Repr

/-- The fields of `corev1.Service` the loop reads. -/
structure Service where
  Namespace : String
  Name : String
  Spec : ServiceSpec
deriving DecidableEq, Repr

/-- The constant `corev1.ServiceTypeNodePort`. -/
def ServiceTypeNodePort : String := "NodePort"

/-- What the event channel carries: a service and whether the event is its
deletion. -/
structure event where
  service : Service
  deleted : Bool
deriving DecidableEq, Repr

/-! ## The machine -/

/-- Source `watcherState` (watcher.go:23-32). -/
inductive watcherState where
  | stateNoConfig
  | stateDisconnected
  | stateConnected
  | stateWatching
deriving DecidableEq, Repr

/-- A loaded `*restclient.Config`, known by a token. -/
structure Config where
  id : Nat
deriving DecidableEq, Repr

/-- A `*kubernetes.Clientset`, known by a token. -/
structure Clientset where
  id : Nat
deriving DecidableEq, Repr

/-- Log levels used by the loop. -/
inductive Level where
  | debug
  | error
deriving DecidableEq, Repr

/-- What the loop does to the outside.  A cancellation scope made by
`context.WithCancel(ctx)` is known by a number. -/
inductive Action where
  | withCancel (scope : Nat)
  | watchCancel (scope : Nat)
  | getClientConfig (configPath : String) (ok : Bool)
  | newForConfig (config : Option Config) (ok : Bool)
  | watchServices (scope : Nat) (clientset : Option Clientset) (ok : Bool)
  | sleep
  | log (level : Level) (msg : String)
  | trackerAdd (ip : IP) (port : Int)
  | trackerRemove (ip : IP) (port : Int)
deriving DecidableEq, Repr

/-- What the `select` of the watching state receives. -/
inductive Recv where
  | errorCh (err : Option GoError)
  | eventCh (ev : event)
deriving DecidableEq, Repr

/-- The answers of the collaborators during one pass through the loop:
whether the governing `ctx` has fired, the result of
`clientConfig.ClientConfig()`, of `kubernetes.NewForConfig`, of
`watchServices`, what the `select` receives, and the result of the `i`-th
tracker call of the pass. -/
structure World where
  ctxDone : Bool
  clientConfig : Option Config × Option GoError
  newForConfig : Option Clientset × Option GoError
  watchServices : Option GoError
  recv : Recv
  tracker : Nat → Option GoError

/-- Where a run stands: still in the loop, returned (with the returned
`error`, `none` being `nil`), or unwinding from a panic. -/
inductive Status where
  | running
  | returned (err : Option GoError)
  | panicked (p : Panic)
deriving DecidableEq, Repr

/-- The variables `WatchForNodePortServices` shares across the states, the
scope counter, the status of the run and the trace of its actions. -/
structure Machine where
  state : watcherState
  err : Option GoError
  config : Option Config
  clientset : Option Clientset
  watchContext : Nat
  watchCancel : Nat
  nextScope : Nat
  status : Status
  trace : List Action
deriving DecidableEq, Repr

/-- Append actions to the trace. -/
def Machine.emit (m : Machine) (as : List Action) : Machine :=
  { m with trace := m.trace ++ as }

/-- A `return err` of the loop: the deferred closure calls `watchCancel()`
(watcher.go:53-55). -/
def Machine.ret (m : Machine) (err : Option GoError) : Machine :=
  { m with trace := m.trace ++ [Action.watchCancel m.watchCancel], status := Status.returned err }

/-- A panic in the loop: the deferred closure still runs. -/
def Machine.panics (m : Machine) (p : Panic) : Machine :=
  { m with trace := m.trace ++ [Action.watchCancel m.watchCancel], status := Status.panicked p }

/-- The value `localhost` (watcher.go:49). -/
def localhost : IP := IPv4 127 0 0 1

/-- Source `getClientConfig` (watcher.go:155-165), given the result of
`clientConfig.ClientConfig()`. -/
def getClientConfig (configPath : String) (clientConfig : Option Config × Option GoError) :
    Option Config × Option GoError :=
  match clientConfig.2 with
  | some err =>
    (none, some (fmtErrorf ("could not load Kubernetes client config from " ++ configPath) err))
  | none => (clientConfig.1, none)

/-- The loop over the ports of a deleted service (watcher.go:115-130); `i` is
the number of tracker calls made so far in this pass. -/
def removePorts (tracker : Nat → Option GoError) : Nat → List ServicePort → List Action
  | _, [] => []
  | i, port :: rest =>
    Action.trackerRemove localhost port.NodePort ::
      (match tracker i with
        | some _ => Action.log Level.error "failed to close listener"
        | none => Action.log Level.debug "kuberentes service: deleted listener") ::
      removePorts tracker (i + 1) rest

/-- The loop over the ports of a live service (watcher.go:132-147). -/
def addPorts (tracker : Nat → Option GoError) : Nat → List ServicePort → List Action
  | _, [] => []
  | i, port :: rest =>
    Action.trackerAdd localhost port.NodePort ::
      (match tracker i with
        | some _ => Action.log Level.error "failed to create listener"
        | none => Action.log Level.debug "kubernetes service: started listener") ::
      addPorts tracker (i + 1) rest

/-- One pass through the `for` loop of `WatchForNodePortServices`
(watcher.go:57-151). -/
def loopBody (configPath : String) (w : World) (m : Machine) : Machine :=
  match m.state with
  | watcherState.stateNoConfig =>
    let r := getClientConfig configPath w.clientConfig
    let m := { m with config := r.1, err := r.2,
                      trace := m.trace ++ [Action.getClientConfig configPath r.2.isNone] }
    match r.2 with
    | some err =>
      let m := m.emit [Action.log Level.debug "kubernetes: failed to read kubeconfig"]
      if errorsIsNotExist err then
        m.emit [Action.sleep]
      else
        m.ret (some err)
    | none =>
      { m.emit [Action.log Level.debug "kubernetes: loaded kubeconfig %s"] with
        state := watcherState.stateDisconnected }
  | watcherState.stateDisconnected =>
    let m := { m with clientset := w.newForConfig.1, err := w.newForConfig.2,
                      trace := m.trace ++ [Action.newForConfig m.config w.newForConfig.2.isNone] }
    match w.newForConfig.2 with
    | some err =>
      (m.emit [Action.log Level.error "failed to load kubeconfig"]).ret
        (some (fmtErrorf "failed to create Kubernetes client" err))
    | none =>
      let m := { m with err := w.watchServices,
                        trace := m.trace ++
                          [Action.watchServices m.watchContext m.clientset w.watchServices.isNone] }
      match w.watchServices with
      | some err =>
        match isTimeout err with
        | Except.error p => m.panics p
        | Except.ok true => m.emit [Action.sleep]
        | Except.ok false => m.ret (some err)
      | none =>
        { m.emit [Action.log Level.debug "watching kubernetes services"] with
          state := watcherState.stateWatching }
  | watcherState.stateConnected => m
  | watcherState.stateWatching =>
    match w.recv with
    | Recv.errorCh err =>
      let m := { m with err := err }
      let m := m.emit [Action.log Level.debug "kubernetes: got error, rolling back"]
      let m := { m with clientset := none }
      let m := m.emit [Action.watchCancel m.watchCancel]
      let m := { m with watchContext := m.nextScope, watchCancel := m.nextScope,
                        nextScope := m.nextScope + 1,
                        trace := m.trace ++ [Action.withCancel m.nextScope] }
      let m := { m with state := watcherState.stateNoConfig }
      m.emit [Action.sleep]
    | Recv.eventCh ev =>
      if ev.service.Spec.Type_ ≠ ServiceTypeNodePort then
        m.emit [Action.log Level.debug "kubernetes service: not node port %s/%s"]
      else if ev.deleted then
        m.emit (removePorts w.tracker 0 ev.service.Spec.Ports)
      else
        m.emit (addPorts w.tracker 0 ev.service.Spec.Ports)

/-- The machine on entry to the loop (watcher.go:42-55): state `stateNoConfig`
and one cancellation scope, made from `ctx`. -/
def start : Machine :=
  { state := watcherState.stateNoConfig, err := none, config := none, clientset := none,
    watchContext := 0, watchCancel := 0, nextScope := 1, status := Status.running,
    trace := [Action.withCancel 0] }

/-- One pass of the loop, if the run is still in the loop. -/
def iterate (configPath : String) (m : Machine) (w : World) : Machine :=
  match m.status with
  | Status.running => loopBody configPath w m
  | _ => m

/-- The run from a machine through the passes the worlds describe. -/
def runFrom (configPath : String) (m : Machine) (ws : List World) : Machine :=
  ws.foldl (iterate configPath) m

/-- Source `WatchForNodePortServices` (watcher.go:40-152): the run through the
given passes. -/
def WatchForNodePortServices (configPath : String) (ws : List World) : Machine :=
  runFrom configPath start ws

/-! ## Reading the trace -/

/-- A call on the listener tracker. -/
inductive TrackerCall where
  | Add (ip : IP) (port : Int)
  | Remove (ip : IP) (port : Int)
deriving DecidableEq, Repr

/-- The tracker call an action is, if it is one. -/
def Action.trackerCall? : Action → Option TrackerCall
  | Action.trackerAdd ip port => some (TrackerCall.Add ip port)
  | Action.trackerRemove ip port => some (TrackerCall.Remove ip port)
  | _ => none

/-- The tracker calls of a trace, in order. -/
def trackerCalls (t : List Action) : List TrackerCall :=
  t.filterMap Action.trackerCall?

/-- Successful config loads in a trace. -/
def configLoads (t : List Action) : Nat :=
  t.countP (fun a => match a with
    | Action.getClientConfig _ true => true
    | _ => false)

/-- Successful client constructions in a trace. -/
def clientsBuilt (t : List Action) : Nat :=
  t.countP (fun a => match a with
    | Action.newForConfig _ true => true
    | _ => false)

/-- Successful watch-opens in a trace. -/
def watchesOpened (t : List Action) : Nat :=
  t.countP (fun a => match a with
    | Action.watchServices _ _ true => true
    | _ => false)

/-! ## Watch cancellation scopes -/

/-- The scopes made and not yet cancelled, after one more action. -/
def scopeStep (live : List Nat) : Action → List Nat
  | Action.withCancel s => live ++ [s]
  | Action.watchCancel s => live.filter (fun x => x ≠ s)
  | _ => live

/-- The scopes a trace has made with `context.WithCancel` and not cancelled
by a call of their cancel function. -/
def liveScopes (t : List Action) : List Nat :=
  t.foldl scopeStep []

/-- The scopes a trace has made, in order. -/
def scopesMade (t : List Action) : List Nat :=
  t.filterMap (fun a => match a with
    | Action.withCancel s => some s
    | _ => none)

/-- Whether an action makes or cancels a scope. -/
def Action.isScope : Action → Bool
  | Action.withCancel _ => true
  | Action.watchCancel _ => true
  | _ => false

/-- The largest number of live scopes at any moment of the actions `t`,
started with the scopes `live`. -/
def peakLive : List Nat → List Action → Nat
  | live, [] => live.length
  | live, a :: rest => max live.length (peakLive (scopeStep live a) rest)

/-- The scope invariant of a run: the context and the cancel function in
hand belong to one scope; at no moment of the trace were two scopes live;
while the run is in the loop the live scope is the current one, and once it
has ended none is live; the scopes made are numbered in order. -/
structure ScopesOK (m : Machine) : Prop where
  same : m.watchContext = m.watchCancel
  peak : peakLive [] m.trace ≤ 1
  live : m.status = Status.running → liveScopes m.trace = [m.watchCancel]
  done : m.status ≠ Status.running → liveScopes m.trace = []
  made : scopesMade m.trace = List.range m.nextScope

/-! ## The requested listeners -/

/-- The requested keys after one more tracker call: `Add` puts its key in,
`Remove` takes it out. -/
def requestStep (keys : Finset (IP × Int)) : TrackerCall → Finset (IP × Int)
  | TrackerCall.Add ip port => insert (ip, port) keys
  | TrackerCall.Remove ip port => keys.erase (ip, port)

/-- The keys requested by the calls on top of `keys`. -/
def requestedFrom (keys : Finset (IP × Int)) (calls : List TrackerCall) : Finset (IP × Int) :=
  calls.foldl requestStep keys

/-- The keys requested after the calls: those that were added and not removed
afterwards. -/
def requested (calls : List TrackerCall) : Finset (IP × Int) :=
  requestedFrom ∅ calls

/-- The service an event is about. -/
def serviceOf (e : event) : String × String :=
  (e.service.Namespace, e.service.Name)

/-- The node ports an event lists. -/
def nodePorts (e : event) : List Int :=
  e.service.Spec.Ports.map (fun port => port.NodePort)

/-- The latest event of every service of a sequence of events: an event is
kept when no later event of the sequence is about the same service. -/
def latestEvents : List event → List event
  | [] => []
  | e :: rest =>
    if rest.any (fun e' => decide (serviceOf e' = serviceOf e)) then latestEvents rest
    else e :: latestEvents rest

/-- The set the specification names: the pairs (127.0.0.1, nodePort) over all
ports of every service whose latest event is not a deletion, the ports being
those of that latest event. -/
def liveKeys (evs : List event) : Finset (IP × Int) :=
  (((latestEvents evs).filter (fun e => !e.deleted)).flatMap
    (fun e => (nodePorts e).map (fun port => (IPv4 127 0 0 1, port)))).toFinset

/-- The deleted flag of the latest event of the sequence that lists the node
port, `none` when no event lists it. -/
def lastMention (port : Int) : List event → Option Bool
  | [] => none
  | e :: rest =>
    match lastMention port rest with
    | some d => some d
    | none => if port ∈ nodePorts e then some e.deleted else none

/-- A sequence of events in which no node port of an event is listed by a
later event of another service, and every node port of an event that is not
a deletion and not the latest event of its service is listed again by a later
event of that service (as when a change of a service is reported by the
deletion of the old service followed by the new one). -/
def orderly : List event → Bool
  | [] => true
  | e :: rest =>
    rest.all (fun e' =>
      (nodePorts e).all (fun port =>
        decide (port ∈ nodePorts e' → serviceOf e' = serviceOf e))) &&
    (e.deleted || !rest.any (fun e' => decide (serviceOf e' = serviceOf e)) ||
      (nodePorts e).all (fun port =>
        rest.any (fun e' => decide (serviceOf e' = serviceOf e ∧ port ∈ nodePorts e')))) &&
    orderly rest

/-- The tracker calls the loop issues for an event of a NodePort service. -/
def callsOf (e : event) : List TrackerCall :=
  e.service.Spec.Ports.map (fun port =>
    if e.deleted then TrackerCall.Remove localhost port.NodePort
    else TrackerCall.Add localhost port.NodePort)

/-! ## Sample inputs -/

/-- A pass in which every collaborator succeeds and the error channel yields
`err`. -/
def worldWithError (err : Option GoError) : World :=
  { ctxDone := false, clientConfig := (some { id := 1 }, none),
    newForConfig := (some { id := 1 }, none), watchServices := none,
    recv := Recv.errorCh err, tracker := fun _ => none }

/-- A pass in which the event channel yields `ev` and the tracker answers by
`tracker`. -/
def worldWithEvent (ev : event) (tracker : Nat → Option GoError) : World :=
  { ctxDone := false, clientConfig := (some { id := 1 }, none),
    newForConfig := (some { id := 1 }, none), watchServices := none,
    recv := Recv.eventCh ev, tracker := tracker }

/-- An error with a single value in its chain. -/
def plainError (msg : String) (notExist : Bool) (timeout : Option Bool) : GoError :=
  { top := { msg := msg, notExist := notExist, timeout := timeout }, inner := [] }

/-- A service of the given type with the given node ports. -/
def mkService (name : String) (type : String) (ports : List Int) : Service :=
  { Namespace := "default", Name := name,
    Spec := { Type_ := type, Ports := ports.map (fun p => { NodePort := p }) } }

/-- The watching machine reached from `start` by a successful config load and
a successful connect. -/
def watching : Machine :=
  WatchForNodePortServices "kubeconfig" [worldWithError none, worldWithError none]

/-- An error a tracker call may return. -/
def listenError : GoError := plainError "listen tcp 127.0.0.1: address already in use" false none

/-- The error of a config path at which there is no file. -/
def noSuchFile : GoError :=
  plainError "open kubeconfig: no such file or directory" true none

/-- The error of a config file that does not parse. -/
def malformed : GoError :=
  plainError "yaml: line 1: did not find expected key" false none

/-- A pass in which the configuration fails to load with `err`. -/
def worldConfigFails (err : GoError) : World :=
  { worldWithError none with clientConfig := (none, some err) }

/-- The error of a connection attempt that timed out: its value has a
`Timeout` method that reports `true`. -/
def dialTimeout : GoError :=
  plainError "dial tcp 127.0.0.1:6443: i/o timeout" false (some true)

/-- An error of another kind: no value of its chain has a `Timeout` method. -/
def forbidden : GoError :=
  plainError "services is forbidden" false none

/-- A pass in which the client is built and opening the watch fails with
`err`. -/
def worldWatchFails (err : GoError) : World :=
  { worldWithError none with watchServices := some err }

/-- The machine reached from `start` by a successful config load. -/
def disconnected : Machine :=
  WatchForNodePortServices "kubeconfig" [worldWithError none]

/-- An error of the watch stream. -/
def streamClosed : GoError := plainError "watch closed" false none

/-- The same pass after the governing `ctx` has fired. -/
def afterCancel (w : World) : World :=
  { w with ctxDone := true }

/-- A sequence of events: the service web comes up on the node port 30080,
the service db on 30090, and web moves to the node port 30081, which is
reported by the deletion of the old web followed by the new one. -/
def sampleEvents : List event :=
  [{ service := mkService "web" "NodePort" [30080], deleted := false },
   { service := mkService "db" "NodePort" [30090], deleted := false },
   { service := mkService "web" "NodePort" [30080], deleted := true },
   { service := mkService "web" "NodePort" [30081], deleted := false }]

/-- The passes that deliver `sampleEvents`. -/
def sampleWorlds : List World :=
  sampleEvents.map (fun e => worldWithEvent e (fun _ => none))

/-! # Theorems -/

/-! ## Lemmas on the port loops -/

theorem trackerCalls_append (s t : List Action) :
    trackerCalls (s ++ t) = trackerCalls s ++ trackerCalls t := by
  simp [trackerCalls, List.filterMap_append]

theorem trackerCalls_removePorts (tracker : Nat → Option GoError) (ports : List ServicePort) :
    ∀ i, trackerCalls (removePorts tracker i ports) =
      ports.map (fun port => TrackerCall.Remove localhost port.NodePort) := by
  induction ports with
  | nil => intro i; rfl
  | cons port rest ih =>
    intro i
    have h := ih (i + 1)
    simp only [trackerCalls] at h ⊢
    cases ht : tracker i <;>
      simp [removePorts, ht, Action.trackerCall?, h]

theorem trackerCalls_addPorts (tracker : Nat → Option GoError) (ports : List ServicePort) :
    ∀ i, trackerCalls (addPorts tracker i ports) =
      ports.map (fun port => TrackerCall.Add localhost port.NodePort) := by
  induction ports with
  | nil => intro i; rfl
  | cons port rest ih =>
    intro i
    have h := ih (i + 1)
    simp only [trackerCalls] at h ⊢
    cases ht : tracker i <;>
      simp [addPorts, ht, Action.trackerCall?, h]

/-- The pass that receives an event of a NodePort service, spelled out. -/
theorem loopBody_nodePort (configPath : String) (w : World) (m : Machine) (ev : event)
    (hst : m.state = watcherState.stateWatching) (hrecv : w.recv = Recv.eventCh ev)
    (hty : ev.service.Spec.Type_ = ServiceTypeNodePort) :
    loopBody configPath w m =
      m.emit (if ev.deleted then removePorts w.tracker 0 ev.service.Spec.Ports
        else addPorts w.tracker 0 ev.service.Spec.Ports) := by
  unfold loopBody
  simp only [hst, hrecv, hty, ne_eq, not_true_eq_false, if_false]
  split <;> rfl

/-- The pass that receives an event of a service that is not NodePort. -/
theorem loopBody_notNodePort (configPath : String) (w : World) (m : Machine) (ev : event)
    (hst : m.state = watcherState.stateWatching) (hrecv : w.recv = Recv.eventCh ev)
    (hty : ev.service.Spec.Type_ ≠ ServiceTypeNodePort) :
    loopBody configPath w m =
      m.emit [Action.log Level.debug "kubernetes service: not node port %s/%s"] := by
  unfold loopBody
  simp only [hst, hrecv, ne_eq, hty, not_false_eq_true, if_true]

theorem iterate_running (configPath : String) (w : World) (m : Machine)
    (hrun : m.status = Status.running) : iterate configPath m w = loopBody configPath w m := by
  simp [iterate, hrun]

/-! ## Events in the watching state -/

/-- C1: an event of a NodePort service received in the watching state makes
the loop issue exactly one tracker call per port of the service, in the order
of the port list, each for 127.0.0.1 and the port's node port; the calls are
all `Add` when the event is not a deletion and all `Remove` when it is, and
the pass makes no other tracker call. -/
theorem nodePort_event_tracker_calls (configPath : String) (w : World) (m : Machine) (ev : event)
    (hrun : m.status = Status.running) (hst : m.state = watcherState.stateWatching)
    (hrecv : w.recv = Recv.eventCh ev) (hty : ev.service.Spec.Type_ = ServiceTypeNodePort) :
    ∃ issued : List Action,
      (iterate configPath m w).trace = m.trace ++ issued ∧
      trackerCalls issued = ev.service.Spec.Ports.map (fun port =>
        if ev.deleted then TrackerCall.Remove (IPv4 127 0 0 1) port.NodePort
        else TrackerCall.Add (IPv4 127 0 0 1) port.NodePort) := by
  rw [iterate_running configPath w m hrun, loopBody_nodePort configPath w m ev hst hrecv hty]
  refine ⟨_, rfl, ?_⟩
  cases ev.deleted
  · simpa [localhost] using trackerCalls_addPorts w.tracker ev.service.Spec.Ports 0
  · simpa [localhost] using trackerCalls_removePorts w.tracker ev.service.Spec.Ports 0

/-- C1 at the service with the single node port 30080: the event that is not
a deletion gives the one call `Add(127.0.0.1, 30080)`, the deletion the one
call `Remove(127.0.0.1, 30080)`. -/
theorem nodePort_event_tracker_calls_witness :
    (∃ issued : List Action,
      (iterate "kubeconfig" watching
        (worldWithEvent { service := mkService "web" "NodePort" [30080], deleted := false }
          (fun _ => none))).trace = watching.trace ++ issued ∧
      trackerCalls issued = [TrackerCall.Add (IPv4 127 0 0 1) 30080]) ∧
    (∃ issued : List Action,
      (iterate "kubeconfig" watching
        (worldWithEvent { service := mkService "web" "NodePort" [30080], deleted := true }
          (fun _ => none))).trace = watching.trace ++ issued ∧
      trackerCalls issued = [TrackerCall.Remove (IPv4 127 0 0 1) 30080]) :=
  ⟨nodePort_event_tracker_calls "kubeconfig"
      (worldWithEvent { service := mkService "web" "NodePort" [30080], deleted := false }
        (fun _ => none))
      watching { service := mkService "web" "NodePort" [30080], deleted := false }
      rfl rfl rfl rfl,
    nodePort_event_tracker_calls "kubeconfig"
      (worldWithEvent { service := mkService "web" "NodePort" [30080], deleted := true }
        (fun _ => none))
      watching { service := mkService "web" "NodePort" [30080], deleted := true }
      rfl rfl rfl rfl⟩

/-- C2: an event of a service whose type is not NodePort, received in the
watching state, makes the loop issue no tracker call, whatever the ports and
the deleted flag of the event; the loop does not return and stays in the
watching state. -/
theorem other_event_ignored (configPath : String) (w : World) (m : Machine) (ev : event)
    (hrun : m.status = Status.running) (hst : m.state = watcherState.stateWatching)
    (hrecv : w.recv = Recv.eventCh ev) (hty : ev.service.Spec.Type_ ≠ ServiceTypeNodePort) :
    (∃ issued : List Action,
      (iterate configPath m w).trace = m.trace ++ issued ∧ trackerCalls issued = []) ∧
    (iterate configPath m w).status = Status.running ∧
    (iterate configPath m w).state = watcherState.stateWatching := by
  rw [iterate_running configPath w m hrun, loopBody_notNodePort configPath w m ev hst hrecv hty]
  exact ⟨⟨_, rfl, rfl⟩, hrun, hst⟩

/-- C2 at an event of a ClusterIP service that lists the port 30080. -/
theorem other_event_ignored_witness :
    ((∃ issued : List Action,
      (iterate "kubeconfig" watching
        (worldWithEvent { service := mkService "db" "ClusterIP" [30080], deleted := false }
          (fun _ => none))).trace = watching.trace ++ issued ∧ trackerCalls issued = []) ∧
    (iterate "kubeconfig" watching
        (worldWithEvent { service := mkService "db" "ClusterIP" [30080], deleted := false }
          (fun _ => none))).status = Status.running ∧
    (iterate "kubeconfig" watching
        (worldWithEvent { service := mkService "db" "ClusterIP" [30080], deleted := false }
          (fun _ => none))).state = watcherState.stateWatching) :=
  other_event_ignored "kubeconfig"
    (worldWithEvent { service := mkService "db" "ClusterIP" [30080], deleted := false }
      (fun _ => none))
    watching { service := mkService "db" "ClusterIP" [30080], deleted := false }
    rfl rfl rfl (by decide)

/-- C3: for an event of a NodePort service and any answers of the tracker,
the pass issues the tracker calls it issues when every call succeeds, one per
port of the service, so a failing call for one port does not stop the calls
for the ports after it; the loop does not return and stays in the watching
state. -/
theorem tracker_failure_not_fatal (configPath : String) (w : World) (m : Machine) (ev : event)
    (tracker : Nat → Option GoError)
    (hrun : m.status = Status.running) (hst : m.state = watcherState.stateWatching)
    (hrecv : w.recv = Recv.eventCh ev) (hty : ev.service.Spec.Type_ = ServiceTypeNodePort) :
    trackerCalls (iterate configPath m { w with tracker := tracker }).trace =
      trackerCalls (iterate configPath m { w with tracker := fun _ => none }).trace ∧
    trackerCalls (iterate configPath m { w with tracker := tracker }).trace =
      trackerCalls m.trace ++ ev.service.Spec.Ports.map (fun port =>
        if ev.deleted then TrackerCall.Remove (IPv4 127 0 0 1) port.NodePort
        else TrackerCall.Add (IPv4 127 0 0 1) port.NodePort) ∧
    (iterate configPath m { w with tracker := tracker }).status = Status.running ∧
    (iterate configPath m { w with tracker := tracker }).state = watcherState.stateWatching := by
  have h₁ := loopBody_nodePort configPath { w with tracker := tracker } m ev hst hrecv hty
  have h₂ := loopBody_nodePort configPath { w with tracker := fun _ => none } m ev hst hrecv hty
  rw [iterate_running configPath _ m hrun, iterate_running configPath _ m hrun, h₁, h₂]
  refine ⟨?_, ?_, hrun, hst⟩
  · simp only [Machine.emit, trackerCalls_append]
    cases ev.deleted
    · simp [trackerCalls_addPorts]
    · simp [trackerCalls_removePorts]
  · simp only [Machine.emit, trackerCalls_append]
    cases ev.deleted
    · simp [trackerCalls_addPorts, localhost]
    · simp [trackerCalls_removePorts, localhost]

/-- C3 at a service with three ports when the call for the second port
fails: the three `Add` calls are issued all the same, and the loop goes on
watching. -/
theorem tracker_failure_not_fatal_witness :
    trackerCalls (iterate "kubeconfig" watching
      { worldWithEvent { service := mkService "web" "NodePort" [30080, 30081, 30082],
                         deleted := false } (fun _ => none) with
        tracker := fun i => if i = 1 then some listenError else none }).trace =
      trackerCalls watching.trace ++
        [TrackerCall.Add (IPv4 127 0 0 1) 30080, TrackerCall.Add (IPv4 127 0 0 1) 30081,
         TrackerCall.Add (IPv4 127 0 0 1) 30082] ∧
    (iterate "kubeconfig" watching
      { worldWithEvent { service := mkService "web" "NodePort" [30080, 30081, 30082],
                         deleted := false } (fun _ => none) with
        tracker := fun i => if i = 1 then some listenError else none }).status = Status.running ∧
    (iterate "kubeconfig" watching
      { worldWithEvent { service := mkService "web" "NodePort" [30080, 30081, 30082],
                         deleted := false } (fun _ => none) with
        tracker := fun i => if i = 1 then some listenError else none }).state =
      watcherState.stateWatching :=
  (tracker_failure_not_fatal "kubeconfig"
    (worldWithEvent { service := mkService "web" "NodePort" [30080, 30081, 30082],
                      deleted := false } (fun _ => none))
    watching { service := mkService "web" "NodePort" [30080, 30081, 30082], deleted := false }
    (fun i => if i = 1 then some listenError else none) rfl rfl rfl rfl).2

/-- The failing call of the second port is visible in the trace: the pass
logs an error for it and goes on to the third port. -/
theorem sample_failure_trace :
    addPorts (fun i => if i = 1 then some listenError else none) 0
        (mkService "web" "NodePort" [30080, 30081, 30082]).Spec.Ports =
      [Action.trackerAdd localhost 30080,
       Action.log Level.debug "kubernetes service: started listener",
       Action.trackerAdd localhost 30081,
       Action.log Level.error "failed to create listener",
       Action.trackerAdd localhost 30082,
       Action.log Level.debug "kubernetes service: started listener"] := by
  decide

/-! ## The state before the configuration is loaded -/

/-- The pass of the state `stateNoConfig`, by the result of `getClientConfig`. -/
theorem loopBody_noConfig (configPath : String) (w : World) (m : Machine)
    (hst : m.state = watcherState.stateNoConfig) :
    loopBody configPath w m =
      match (getClientConfig configPath w.clientConfig).2 with
      | some err =>
        if errorsIsNotExist err then
          { m with config := (getClientConfig configPath w.clientConfig).1, err := some err,
                   trace := m.trace ++ [Action.getClientConfig configPath false,
                     Action.log Level.debug "kubernetes: failed to read kubeconfig",
                     Action.sleep] }
        else
          { m with config := (getClientConfig configPath w.clientConfig).1, err := some err,
                   trace := m.trace ++ [Action.getClientConfig configPath false,
                     Action.log Level.debug "kubernetes: failed to read kubeconfig",
                     Action.watchCancel m.watchCancel],
                   status := Status.returned (some err) }
      | none =>
        { m with config := (getClientConfig configPath w.clientConfig).1, err := none,
                 trace := m.trace ++ [Action.getClientConfig configPath true,
                   Action.log Level.debug "kubernetes: loaded kubeconfig %s"],
                 state := watcherState.stateDisconnected } := by
  unfold loopBody
  simp only [hst]
  cases h : (getClientConfig configPath w.clientConfig).2 with
  | none => simp [Machine.emit]
  | some err =>
    by_cases hne : errorsIsNotExist err = true <;>
      simp [hne, Machine.emit, Machine.ret]

/-- Passes that find no file at the config path keep a machine that waits for
the configuration where it is. -/
theorem runFrom_noConfig_missing (configPath : String) (ws : List World) :
    ∀ m : Machine, m.status = Status.running → m.state = watcherState.stateNoConfig →
      (∀ w ∈ ws, ∃ e, (getClientConfig configPath w.clientConfig).2 = some e ∧
        errorsIsNotExist e = true) →
      (runFrom configPath m ws).status = Status.running ∧
      (runFrom configPath m ws).state = watcherState.stateNoConfig ∧
      trackerCalls (runFrom configPath m ws).trace = trackerCalls m.trace := by
  induction ws with
  | nil => intro m hrun hst _; exact ⟨hrun, hst, rfl⟩
  | cons w rest ih =>
    intro m hrun hst hws
    obtain ⟨e, he, hne⟩ := hws w (List.mem_cons_self _ _)
    have hstep : iterate configPath m w =
        { m with config := (getClientConfig configPath w.clientConfig).1, err := some e,
                 trace := m.trace ++ [Action.getClientConfig configPath false,
                   Action.log Level.debug "kubernetes: failed to read kubeconfig",
                   Action.sleep] } := by
      rw [iterate_running configPath w m hrun, loopBody_noConfig configPath w m hst]
      simp [he, hne]
    have hrest := ih (iterate configPath m w) (by rw [hstep]; exact hrun)
      (by rw [hstep]; exact hst)
      (fun w' hw' => hws w' (List.mem_cons_of_mem _ hw'))
    refine ⟨hrest.1, hrest.2.1, ?_⟩
    have htc : trackerCalls (iterate configPath m w).trace = trackerCalls m.trace := by
      rw [hstep]
      simp [trackerCalls_append, trackerCalls, Action.trackerCall?]
    simpa [runFrom, htc] using hrest.2.2

/-- C5: in the state `stateNoConfig`, when loading the configuration fails
with an error that is a file-does-not-exist error the loop does not return,
issues no tracker call and stays in `stateNoConfig`, however many passes find
no file; when loading fails with any other error the loop returns that error;
when loading succeeds the state becomes `stateDisconnected`. -/
theorem noConfig_transitions (configPath : String) (w : World) (m : Machine)
    (hrun : m.status = Status.running) (hst : m.state = watcherState.stateNoConfig) :
    (∀ e, (getClientConfig configPath w.clientConfig).2 = some e → errorsIsNotExist e = true →
      (iterate configPath m w).status = Status.running ∧
      (iterate configPath m w).state = watcherState.stateNoConfig ∧
      ∃ issued : List Action,
        (iterate configPath m w).trace = m.trace ++ issued ∧ trackerCalls issued = []) ∧
    (∀ ws : List World,
      (∀ w' ∈ ws, ∃ e, (getClientConfig configPath w'.clientConfig).2 = some e ∧
        errorsIsNotExist e = true) →
      (runFrom configPath m ws).status = Status.running ∧
      (runFrom configPath m ws).state = watcherState.stateNoConfig ∧
      trackerCalls (runFrom configPath m ws).trace = trackerCalls m.trace) ∧
    (∀ e, (getClientConfig configPath w.clientConfig).2 = some e → errorsIsNotExist e = false →
      (iterate configPath m w).status = Status.returned (some e)) ∧
    ((getClientConfig configPath w.clientConfig).2 = none →
      (iterate configPath m w).status = Status.running ∧
      (iterate configPath m w).state = watcherState.stateDisconnected) := by
  rw [iterate_running configPath w m hrun, loopBody_noConfig configPath w m hst]
  refine ⟨?_, ?_, ?_, ?_⟩
  · intro e he hne
    simp only [he, hne, if_true]
    exact ⟨hrun, hst, _, rfl, rfl⟩
  · intro ws hws
    exact runFrom_noConfig_missing configPath ws m hrun hst hws
  · intro e he hne
    simp [he, hne]
  · intro he
    simp only [he]
    exact ⟨hrun, trivial⟩

/-- C5 on entry to the loop: three passes that find no file leave the loop
waiting, a malformed file makes it return the error `getClientConfig` made,
and a file that loads moves it to `stateDisconnected`. -/
theorem noConfig_transitions_witness :
    ((runFrom "kubeconfig" start
        [worldConfigFails noSuchFile, worldConfigFails noSuchFile,
         worldConfigFails noSuchFile]).status = Status.running ∧
      (runFrom "kubeconfig" start
        [worldConfigFails noSuchFile, worldConfigFails noSuchFile,
         worldConfigFails noSuchFile]).state = watcherState.stateNoConfig ∧
      trackerCalls (runFrom "kubeconfig" start
        [worldConfigFails noSuchFile, worldConfigFails noSuchFile,
         worldConfigFails noSuchFile]).trace = trackerCalls start.trace) ∧
    (iterate "kubeconfig" start (worldConfigFails malformed)).status =
      Status.returned (some (fmtErrorf
        ("could not load Kubernetes client config from " ++ "kubeconfig") malformed)) ∧
    ((iterate "kubeconfig" start (worldWithError none)).status = Status.running ∧
      (iterate "kubeconfig" start (worldWithError none)).state =
        watcherState.stateDisconnected) :=
  ⟨(noConfig_transitions "kubeconfig" (worldWithError none) start rfl rfl).2.1
      [worldConfigFails noSuchFile, worldConfigFails noSuchFile, worldConfigFails noSuchFile]
      (by
        intro w hw
        simp only [List.mem_cons, List.mem_singleton, List.not_mem_nil, or_false, or_self] at hw
        subst hw
        exact ⟨_, rfl, rfl⟩),
    (noConfig_transitions "kubeconfig" (worldConfigFails malformed) start rfl rfl).2.2.1
      _ rfl rfl,
    (noConfig_transitions "kubeconfig" (worldWithError none) start rfl rfl).2.2.2 rfl⟩

/-- The wrapping `getClientConfig` does keeps a file-does-not-exist error
recognisable. -/
theorem errorsIsNotExist_fmtErrorf (msg : String) (err : GoError) :
    errorsIsNotExist (fmtErrorf msg err) = errorsIsNotExist err := by
  simp [errorsIsNotExist, fmtErrorf, GoError.chain]

/-! ## The state that connects -/

/-- The pass of the state `stateDisconnected`, by the results of
`kubernetes.NewForConfig`, `watchServices` and `errors.As`. -/
theorem loopBody_disconnected (configPath : String) (w : World) (m : Machine)
    (hst : m.state = watcherState.stateDisconnected) :
    loopBody configPath w m =
      match w.newForConfig.2 with
      | some err =>
        { m with clientset := w.newForConfig.1, err := some err,
                 trace := m.trace ++ [Action.newForConfig m.config false,
                   Action.log Level.error "failed to load kubeconfig",
                   Action.watchCancel m.watchCancel],
                 status := Status.returned
                   (some (fmtErrorf "failed to create Kubernetes client" err)) }
      | none =>
        match w.watchServices with
        | some err =>
          match errorsAsTimeout err with
          | some _ =>
            { m with clientset := w.newForConfig.1, err := some err,
                     trace := m.trace ++ [Action.newForConfig m.config true,
                       Action.watchServices m.watchContext w.newForConfig.1 false,
                       Action.watchCancel m.watchCancel],
                     status := Status.returned (some err) }
          | none =>
            { m with clientset := w.newForConfig.1, err := some err,
                     trace := m.trace ++ [Action.newForConfig m.config true,
                       Action.watchServices m.watchContext w.newForConfig.1 false,
                       Action.watchCancel m.watchCancel],
                     status := Status.panicked Panic.nilDereference }
        | none =>
          { m with clientset := w.newForConfig.1, err := none,
                   trace := m.trace ++ [Action.newForConfig m.config true,
                     Action.watchServices m.watchContext w.newForConfig.1 true,
                     Action.log Level.debug "watching kubernetes services"],
                   state := watcherState.stateWatching } := by
  unfold loopBody
  simp only [hst]
  cases hn : w.newForConfig.2 with
  | some err => simp [Machine.emit, Machine.ret]
  | none =>
    cases hw : w.watchServices with
    | none => simp [Machine.emit]
    | some err =>
      cases ha : errorsAsTimeout err with
      | none => simp [isTimeout, ha, callTimeout, Machine.panics]
      | some n => simp [isTimeout, ha, Machine.ret]

/-- The function `isTimeout` never reports a timeout: it answers `false` when
some value of the chain has a `Timeout` method and panics when none has. -/
theorem isTimeout_eq (err : GoError) :
    isTimeout err =
      match errorsAsTimeout err with
      | some _ => Except.ok false
      | none => Except.error Panic.nilDereference := by
  unfold isTimeout
  cases h : errorsAsTimeout err <;> simp [callTimeout]

/-- C6: at a watch-open failure with a timeout error the code does not retry:
`isTimeout` answers `false` for the error whose `Timeout` method reports
`true`, and the loop, in `stateDisconnected`, returns the error. -/
theorem timeout_error_not_retried :
    errorsAsTimeout dialTimeout = some dialTimeout.top ∧
    dialTimeout.top.timeout = some true ∧
    isTimeout dialTimeout = Except.ok false ∧
    disconnected.status = Status.running ∧
    disconnected.state = watcherState.stateDisconnected ∧
    (iterate "kubeconfig" disconnected (worldWatchFails dialTimeout)).status =
      Status.returned (some dialTimeout) :=
  ⟨rfl, rfl, rfl, rfl, rfl, rfl⟩

/-- C7: at a watch-open failure with an error none of whose values has a
`Timeout` method the code does not return the error: `isTimeout` panics on
the nil interface value, and the loop, in `stateDisconnected`, unwinds with
that panic. -/
theorem other_error_panics :
    errorsAsTimeout forbidden = none ∧
    isTimeout forbidden = Except.error Panic.nilDereference ∧
    disconnected.status = Status.running ∧
    disconnected.state = watcherState.stateDisconnected ∧
    (iterate "kubeconfig" disconnected (worldWatchFails forbidden)).status =
      Status.panicked Panic.nilDereference :=
  ⟨rfl, rfl, rfl, rfl, rfl⟩

/-! ## A stream error restarts the loop -/

/-- The pass of the state `stateWatching` that receives from the error
channel (watcher.go:98-107). -/
theorem loopBody_streamError (configPath : String) (w : World) (m : Machine)
    (err : Option GoError)
    (hst : m.state = watcherState.stateWatching) (hrecv : w.recv = Recv.errorCh err) :
    loopBody configPath w m =
      { m with err := err, clientset := none, watchContext := m.nextScope,
               watchCancel := m.nextScope, nextScope := m.nextScope + 1,
               state := watcherState.stateNoConfig,
               trace := m.trace ++ [Action.log Level.debug "kubernetes: got error, rolling back",
                 Action.watchCancel m.watchCancel, Action.withCancel m.nextScope,
                 Action.sleep] } := by
  unfold loopBody
  simp [hst, hrecv, Machine.emit]

theorem runFrom_cons (configPath : String) (m : Machine) (w : World) (ws : List World) :
    runFrom configPath m (w :: ws) = runFrom configPath (iterate configPath m w) ws := rfl

/-- A run that has returned or panicked makes no further pass. -/
theorem runFrom_stopped (configPath : String) (ws : List World) :
    ∀ m : Machine, m.status ≠ Status.running → runFrom configPath m ws = m := by
  induction ws with
  | nil => intro m _; rfl
  | cons w rest ih =>
    intro m hm
    have hstep : iterate configPath m w = m := by
      unfold iterate
      split
      · next h => exact absurd h hm
      · rfl
    rw [runFrom_cons, hstep]
    exact ih m hm

/-- A pass in `stateDisconnected` either ends the run or opens the watch:
it never stays in `stateDisconnected`. -/
theorem iterate_disconnected (configPath : String) (w : World) (m : Machine)
    (hrun : m.status = Status.running) (hst : m.state = watcherState.stateDisconnected) :
    (iterate configPath m w).status ≠ Status.running ∨
    iterate configPath m w =
      { m with clientset := w.newForConfig.1, err := none,
               trace := m.trace ++ [Action.newForConfig m.config true,
                 Action.watchServices m.watchContext w.newForConfig.1 true,
                 Action.log Level.debug "watching kubernetes services"],
               state := watcherState.stateWatching } := by
  rw [iterate_running configPath w m hrun, loopBody_disconnected configPath w m hst]
  cases hn : w.newForConfig.2 with
  | some err => left; simp
  | none =>
    cases hw : w.watchServices with
    | none => right; rfl
    | some err =>
      left
      cases ha : errorsAsTimeout err <;> simp [ha]

/-- A pass in `stateNoConfig` waits for the file, ends the run, or loads the
configuration. -/
theorem iterate_noConfig (configPath : String) (w : World) (m : Machine)
    (hrun : m.status = Status.running) (hst : m.state = watcherState.stateNoConfig) :
    (∃ err, iterate configPath m w =
      { m with config := (getClientConfig configPath w.clientConfig).1, err := some err,
               trace := m.trace ++ [Action.getClientConfig configPath false,
                 Action.log Level.debug "kubernetes: failed to read kubeconfig",
                 Action.sleep] }) ∨
    (iterate configPath m w).status ≠ Status.running ∨
    iterate configPath m w =
      { m with config := (getClientConfig configPath w.clientConfig).1, err := none,
               trace := m.trace ++ [Action.getClientConfig configPath true,
                 Action.log Level.debug "kubernetes: loaded kubeconfig %s"],
               state := watcherState.stateDisconnected } := by
  rw [iterate_running configPath w m hrun, loopBody_noConfig configPath w m hst]
  cases hc : (getClientConfig configPath w.clientConfig).2 with
  | none => right; right; rfl
  | some err =>
    by_cases hne : errorsIsNotExist err = true
    · left; exact ⟨err, by simp [hne]⟩
    · right; left; simp [hne]

/-- From `stateDisconnected` the first return to `stateWatching` takes one
client construction and one watch-open, and no tracker call. -/
theorem reconnect_counts (configPath : String) (ws : List World) (m : Machine)
    (hrun : m.status = Status.running) (hst : m.state = watcherState.stateDisconnected)
    (hfinal : (runFrom configPath m ws).status = Status.running)
    (hwatch : (runFrom configPath m ws).state = watcherState.stateWatching)
    (hfirst : ∀ k, k < ws.length →
      (runFrom configPath m (ws.take k)).state ≠ watcherState.stateWatching) :
    configLoads (runFrom configPath m ws).trace = configLoads m.trace ∧
    clientsBuilt (runFrom configPath m ws).trace = clientsBuilt m.trace + 1 ∧
    watchesOpened (runFrom configPath m ws).trace = watchesOpened m.trace + 1 ∧
    trackerCalls (runFrom configPath m ws).trace = trackerCalls m.trace := by
  cases ws with
  | nil =>
    rw [show runFrom configPath m [] = m from rfl, hst] at hwatch
    exact absurd hwatch (by decide)
  | cons w rest =>
    rw [runFrom_cons] at hfinal hwatch ⊢
    rcases iterate_disconnected configPath w m hrun hst with hstop | hstep
    · rw [runFrom_stopped configPath rest _ hstop] at hfinal
      exact absurd hfinal hstop
    · cases rest with
      | nil =>
        rw [show runFrom configPath (iterate configPath m w) [] = iterate configPath m w
          from rfl, hstep]
        simp [configLoads, clientsBuilt, watchesOpened, trackerCalls, Action.trackerCall?,
          List.countP_append]
      | cons w' rest' =>
        have h1 := hfirst 1 (by simp)
        rw [show (w :: w' :: rest').take 1 = [w] from rfl,
          show runFrom configPath m [w] = iterate configPath m w from rfl, hstep] at h1
        exact absurd rfl h1

/-- From `stateNoConfig` the first return to `stateWatching` takes one
successful config load, one client construction and one watch-open, and no
tracker call. -/
theorem restart_counts (configPath : String) (ws : List World) :
    ∀ m : Machine, m.status = Status.running → m.state = watcherState.stateNoConfig →
      (runFrom configPath m ws).status = Status.running →
      (runFrom configPath m ws).state = watcherState.stateWatching →
      (∀ k, k < ws.length →
        (runFrom configPath m (ws.take k)).state ≠ watcherState.stateWatching) →
      configLoads (runFrom configPath m ws).trace = configLoads m.trace + 1 ∧
      clientsBuilt (runFrom configPath m ws).trace = clientsBuilt m.trace + 1 ∧
      watchesOpened (runFrom configPath m ws).trace = watchesOpened m.trace + 1 ∧
      trackerCalls (runFrom configPath m ws).trace = trackerCalls m.trace := by
  induction ws with
  | nil =>
    intro m _ hst _ hwatch _
    rw [show runFrom configPath m [] = m from rfl, hst] at hwatch
    exact absurd hwatch (by decide)
  | cons w rest ih =>
    intro m hrun hst hfinal hwatch hfirst
    have hshift : ∀ k, k < rest.length →
        (runFrom configPath (iterate configPath m w) (rest.take k)).state ≠
          watcherState.stateWatching := by
      intro k hk
      have := hfirst (k + 1) (by simpa using hk)
      simpa [List.take_succ_cons, runFrom_cons] using this
    rw [runFrom_cons] at hfinal hwatch ⊢
    rcases iterate_noConfig configPath w m hrun hst with ⟨err, hstep⟩ | hstop | hstep
    · have h := ih (iterate configPath m w) (by rw [hstep]; exact hrun)
        (by rw [hstep]; exact hst) hfinal hwatch hshift
      have ht : (iterate configPath m w).trace = m.trace ++
          [Action.getClientConfig configPath false,
            Action.log Level.debug "kubernetes: failed to read kubeconfig",
            Action.sleep] := by rw [hstep]
      rw [ht] at h
      simpa [configLoads, clientsBuilt, watchesOpened, trackerCalls, Action.trackerCall?,
        List.countP_append] using h
    · rw [runFrom_stopped configPath rest _ hstop] at hfinal
      exact absurd hfinal hstop
    · have h := reconnect_counts configPath rest (iterate configPath m w)
        (by rw [hstep]; exact hrun) (by rw [hstep]) hfinal hwatch hshift
      have ht : (iterate configPath m w).trace = m.trace ++
          [Action.getClientConfig configPath true,
            Action.log Level.debug "kubernetes: loaded kubeconfig %s"] := by rw [hstep]
      rw [ht] at h
      simpa [configLoads, clientsBuilt, watchesOpened, trackerCalls, Action.trackerCall?,
        List.countP_append, Nat.add_comm] using h

/-- From `stateNoConfig` the first return to `stateWatching` ends on the
construction of a client from the configuration in hand and the opening of
the watch with that client, on the scope in hand. -/
theorem restart_last (configPath : String) (ws : List World) :
    ∀ m : Machine, m.status = Status.running → m.state = watcherState.stateNoConfig →
      (runFrom configPath m ws).status = Status.running →
      (runFrom configPath m ws).state = watcherState.stateWatching →
      (∀ k, k < ws.length →
        (runFrom configPath m (ws.take k)).state ≠ watcherState.stateWatching) →
      ∃ (t : List Action) (c : Option Clientset),
        (runFrom configPath m ws).trace =
          t ++ [Action.newForConfig (runFrom configPath m ws).config true,
            Action.watchServices m.watchContext c true,
            Action.log Level.debug "watching kubernetes services"] ∧
        (runFrom configPath m ws).clientset = c ∧
        (runFrom configPath m ws).watchContext = m.watchContext := by
  induction ws with
  | nil =>
    intro m _ hst _ hwatch _
    rw [show runFrom configPath m [] = m from rfl, hst] at hwatch
    exact absurd hwatch (by decide)
  | cons w rest ih =>
    intro m hrun hst hfinal hwatch hfirst
    have hshift : ∀ k, k < rest.length →
        (runFrom configPath (iterate configPath m w) (rest.take k)).state ≠
          watcherState.stateWatching := by
      intro k hk
      have := hfirst (k + 1) (by simpa using hk)
      simpa [List.take_succ_cons, runFrom_cons] using this
    rw [runFrom_cons] at hfinal hwatch ⊢
    rcases iterate_noConfig configPath w m hrun hst with ⟨err, hstep⟩ | hstop | hstep
    · have h := ih (iterate configPath m w) (by rw [hstep]; exact hrun)
        (by rw [hstep]; exact hst) hfinal hwatch hshift
      have hctx : (iterate configPath m w).watchContext = m.watchContext := by rw [hstep]
      rw [hctx] at h
      exact h
    · rw [runFrom_stopped configPath rest _ hstop] at hfinal
      exact absurd hfinal hstop
    · cases rest with
      | nil =>
        rw [show runFrom configPath (iterate configPath m w) [] = iterate configPath m w
          from rfl, hstep] at hwatch
        simp at hwatch
      | cons w' rest' =>
        have hrun₁ : (iterate configPath m w).status = Status.running := by
          rw [hstep]; exact hrun
        have hst₁ : (iterate configPath m w).state = watcherState.stateDisconnected := by
          rw [hstep]
        rcases iterate_disconnected configPath w' _ hrun₁ hst₁ with hstop | hstep'
        · rw [runFrom_cons, runFrom_stopped configPath rest' _ hstop] at hfinal
          exact absurd hfinal hstop
        · cases rest' with
          | nil =>
            rw [runFrom_cons,
              show runFrom configPath (iterate configPath (iterate configPath m w) w') [] =
                iterate configPath (iterate configPath m w) w' from rfl, hstep']
            have hctx : (iterate configPath m w).watchContext = m.watchContext := by rw [hstep]
            exact ⟨(iterate configPath m w).trace, w'.newForConfig.1, by rw [hctx], rfl, hctx⟩
          | cons w'' rest'' =>
            have h1 := hshift 1 (by simp)
            rw [show (w' :: w'' :: rest'').take 1 = [w'] from rfl,
              show runFrom configPath (iterate configPath m w) [w'] =
                iterate configPath (iterate configPath m w) w' from rfl, hstep'] at h1
            exact absurd rfl h1

/-- C8: an error received from the error channel in the watching state makes
the loop neither return nor call the tracker: it drops the client, cancels
the current watch scope and goes to `stateNoConfig`; and when the state is
next `stateWatching`, exactly one config load, one client construction and
one watch-open have succeeded since the error, no tracker call was issued,
and the watch was opened on the replacement scope with the client built from
the configuration in hand, which is the client in hand. -/
theorem stream_error_restarts (configPath : String) (w : World) (m : Machine)
    (err : Option GoError)
    (hrun : m.status = Status.running) (hst : m.state = watcherState.stateWatching)
    (hrecv : w.recv = Recv.errorCh err) :
    (iterate configPath m w).status = Status.running ∧
    (iterate configPath m w).state = watcherState.stateNoConfig ∧
    (iterate configPath m w).clientset = none ∧
    (iterate configPath m w).trace =
      m.trace ++ [Action.log Level.debug "kubernetes: got error, rolling back",
        Action.watchCancel m.watchCancel, Action.withCancel m.nextScope, Action.sleep] ∧
    trackerCalls (iterate configPath m w).trace = trackerCalls m.trace ∧
    ∀ ws : List World,
      (runFrom configPath (iterate configPath m w) ws).status = Status.running →
      (runFrom configPath (iterate configPath m w) ws).state = watcherState.stateWatching →
      (∀ k, k < ws.length →
        (runFrom configPath (iterate configPath m w) (ws.take k)).state ≠
          watcherState.stateWatching) →
      configLoads (runFrom configPath (iterate configPath m w) ws).trace =
        configLoads (iterate configPath m w).trace + 1 ∧
      clientsBuilt (runFrom configPath (iterate configPath m w) ws).trace =
        clientsBuilt (iterate configPath m w).trace + 1 ∧
      watchesOpened (runFrom configPath (iterate configPath m w) ws).trace =
        watchesOpened (iterate configPath m w).trace + 1 ∧
      trackerCalls (runFrom configPath (iterate configPath m w) ws).trace =
        trackerCalls m.trace ∧
      ∃ t : List Action,
        (runFrom configPath (iterate configPath m w) ws).trace =
          t ++ [Action.newForConfig (runFrom configPath (iterate configPath m w) ws).config true,
            Action.watchServices m.nextScope
              (runFrom configPath (iterate configPath m w) ws).clientset true,
            Action.log Level.debug "watching kubernetes services"] := by
  have hstep := loopBody_streamError configPath w m err hst hrecv
  rw [← iterate_running configPath w m hrun] at hstep
  have hrun₁ : (iterate configPath m w).status = Status.running := by rw [hstep]; exact hrun
  have hst₁ : (iterate configPath m w).state = watcherState.stateNoConfig := by rw [hstep]
  have htc : trackerCalls (iterate configPath m w).trace = trackerCalls m.trace := by
    rw [hstep]
    simp [trackerCalls, Action.trackerCall?]
  refine ⟨hrun₁, hst₁, by rw [hstep], by rw [hstep], htc, ?_⟩
  intro ws hfinal hwatch hfirst
  have h := restart_counts configPath ws (iterate configPath m w) hrun₁ hst₁ hfinal hwatch hfirst
  obtain ⟨t, c, ht, hc, _⟩ :=
    restart_last configPath ws (iterate configPath m w) hrun₁ hst₁ hfinal hwatch hfirst
  have hctx : (iterate configPath m w).watchContext = m.nextScope := by rw [hstep]
  refine ⟨h.1, h.2.1, h.2.2.1, h.2.2.2.trans htc, t, ?_⟩
  rw [hc, ← hctx]
  exact ht

/-- C8 at a stream error followed by a pass that finds no config file, a pass
that loads it and a pass that connects. -/
theorem stream_error_restarts_witness :
    (iterate "kubeconfig" watching (worldWithError (some streamClosed))).status =
      Status.running ∧
    (iterate "kubeconfig" watching (worldWithError (some streamClosed))).state =
      watcherState.stateNoConfig ∧
    (iterate "kubeconfig" watching (worldWithError (some streamClosed))).clientset = none ∧
    configLoads (runFrom "kubeconfig"
        (iterate "kubeconfig" watching (worldWithError (some streamClosed)))
        [worldConfigFails noSuchFile, worldWithError none, worldWithError none]).trace =
      configLoads (iterate "kubeconfig" watching (worldWithError (some streamClosed))).trace + 1 ∧
    clientsBuilt (runFrom "kubeconfig"
        (iterate "kubeconfig" watching (worldWithError (some streamClosed)))
        [worldConfigFails noSuchFile, worldWithError none, worldWithError none]).trace =
      clientsBuilt (iterate "kubeconfig" watching
        (worldWithError (some streamClosed))).trace + 1 ∧
    watchesOpened (runFrom "kubeconfig"
        (iterate "kubeconfig" watching (worldWithError (some streamClosed)))
        [worldConfigFails noSuchFile, worldWithError none, worldWithError none]).trace =
      watchesOpened (iterate "kubeconfig" watching
        (worldWithError (some streamClosed))).trace + 1 ∧
    trackerCalls (runFrom "kubeconfig"
        (iterate "kubeconfig" watching (worldWithError (some streamClosed)))
        [worldConfigFails noSuchFile, worldWithError none, worldWithError none]).trace =
      trackerCalls watching.trace :=
  have h := stream_error_restarts "kubeconfig" (worldWithError (some streamClosed)) watching
    (some streamClosed) rfl rfl rfl
  have h' := h.2.2.2.2.2 [worldConfigFails noSuchFile, worldWithError none, worldWithError none]
    rfl rfl (by decide)
  ⟨h.1, h.2.1, h.2.2.1, h'.1, h'.2.1, h'.2.2.1, h'.2.2.2.1⟩

/-! ## Cancellation and the returned error -/

/-- C9 fails on the code.  After the governing `ctx` has fired, a pass in
`stateNoConfig` that finds no config file leaves the loop running in
`stateNoConfig`, and so do three such passes in a row: the loop does not
return `nil`.  In `stateDisconnected` a pass that connects goes on to
`stateWatching`, and in `stateWatching` an event of a NodePort service
received after the cancellation still makes the loop call `Add` on the
tracker. -/
theorem cancellation_not_observed :
    (afterCancel (worldConfigFails noSuchFile)).ctxDone = true ∧
    (iterate "kubeconfig" start (afterCancel (worldConfigFails noSuchFile))).status =
      Status.running ∧
    (iterate "kubeconfig" start (afterCancel (worldConfigFails noSuchFile))).state =
      watcherState.stateNoConfig ∧
    (WatchForNodePortServices "kubeconfig"
      [afterCancel (worldConfigFails noSuchFile), afterCancel (worldConfigFails noSuchFile),
       afterCancel (worldConfigFails noSuchFile)]).status = Status.running ∧
    (iterate "kubeconfig" disconnected (afterCancel (worldWithError none))).status =
      Status.running ∧
    (iterate "kubeconfig" disconnected (afterCancel (worldWithError none))).state =
      watcherState.stateWatching ∧
    (iterate "kubeconfig" watching
      (afterCancel (worldWithEvent
        { service := mkService "web" "NodePort" [30080], deleted := false }
        (fun _ => none)))).status = Status.running ∧
    trackerCalls (iterate "kubeconfig" watching
      (afterCancel (worldWithEvent
        { service := mkService "web" "NodePort" [30080], deleted := false }
        (fun _ => none)))).trace = [TrackerCall.Add localhost 30080] := by
  refine ⟨rfl, rfl, rfl, rfl, rfl, rfl, rfl, rfl⟩

/-- A pass leaves the run in the loop, returns a non-nil error, or panics. -/
theorem iterate_status (configPath : String) (w : World) (m : Machine)
    (hrun : m.status = Status.running) :
    (iterate configPath m w).status = Status.running ∨
    (∃ e, (iterate configPath m w).status = Status.returned (some e)) ∨
    ∃ p, (iterate configPath m w).status = Status.panicked p := by
  rw [iterate_running configPath w m hrun]
  cases hst : m.state with
  | stateNoConfig =>
    rw [loopBody_noConfig configPath w m hst]
    cases hc : (getClientConfig configPath w.clientConfig).2 with
    | none => left; exact hrun
    | some err =>
      by_cases hne : errorsIsNotExist err = true
      · left; simpa [hne] using hrun
      · right; left; exact ⟨err, by simp [hne]⟩
  | stateDisconnected =>
    rw [loopBody_disconnected configPath w m hst]
    cases hn : w.newForConfig.2 with
    | some err => right; left; exact ⟨_, rfl⟩
    | none =>
      cases hw : w.watchServices with
      | none => left; exact hrun
      | some err =>
        cases ha : errorsAsTimeout err with
        | none => right; right; exact ⟨Panic.nilDereference, by simp [ha]⟩
        | some n => right; left; exact ⟨err, by simp [ha]⟩
  | stateConnected =>
    left
    unfold loopBody
    simp [hst, hrun]
  | stateWatching =>
    left
    cases hr : w.recv with
    | errorCh err =>
      rw [loopBody_streamError configPath w m err hst hr]
      exact hrun
    | eventCh ev =>
      by_cases hty : ev.service.Spec.Type_ = ServiceTypeNodePort
      · rw [loopBody_nodePort configPath w m ev hst hr hty]
        exact hrun
      · rw [loopBody_notNodePort configPath w m ev hst hr hty]
        exact hrun

/-- No run from a machine that has not returned `nil` returns `nil`. -/
theorem runFrom_never_nil (configPath : String) (ws : List World) :
    ∀ m : Machine, m.status ≠ Status.returned none →
      (runFrom configPath m ws).status ≠ Status.returned none := by
  induction ws with
  | nil => intro m hm; exact hm
  | cons w rest ih =>
    intro m hm
    rw [runFrom_cons]
    apply ih
    by_cases hrun : m.status = Status.running
    · rcases iterate_status configPath w m hrun with h | ⟨e, h⟩ | ⟨p, h⟩ <;> rw [h] <;> simp
    · have hstep : iterate configPath m w = m := by
        unfold iterate
        split
        · next h => exact absurd h hrun
        · rfl
      rw [hstep]
      exact hm

/-- C9, amended: the loop does not consult the governing `ctx`, a pass does
the same whether or not `ctx` has fired; and `WatchForNodePortServices` never
returns `nil`, every return carries a non-nil error. -/
theorem never_returns_nil (configPath : String) (ws : List World) :
    (∀ (m : Machine) (w : World) (done : Bool),
      iterate configPath m { w with ctxDone := done } = iterate configPath m w) ∧
    (WatchForNodePortServices configPath ws).status ≠ Status.returned none ∧
    (∀ err, (WatchForNodePortServices configPath ws).status = Status.returned err →
      ∃ e, err = some e) := by
  have hnil := runFrom_never_nil configPath ws start (by decide)
  refine ⟨fun m w done => rfl, hnil, ?_⟩
  intro err herr
  cases err with
  | none => exact absurd herr hnil
  | some e => exact ⟨e, rfl⟩

/-- C9, amended, at a run that ends on a malformed config file: the status is
not a return of `nil`, and the returned error is a non-nil error. -/
theorem never_returns_nil_witness :
    (WatchForNodePortServices "kubeconfig" [worldConfigFails malformed]).status ≠
      Status.returned none ∧
    ∃ e, some (fmtErrorf ("could not load Kubernetes client config from " ++ "kubeconfig")
      malformed) = some e :=
  ⟨(never_returns_nil "kubeconfig" [worldConfigFails malformed]).2.1,
    (never_returns_nil "kubeconfig" [worldConfigFails malformed]).2.2 _ rfl⟩

/-! ## Watch cancellation scopes -/

theorem scopeStep_of_not_scope (live : List Nat) (a : Action) (h : a.isScope = false) :
    scopeStep live a = live := by
  cases a <;> simp_all [scopeStep, Action.isScope]

theorem foldl_scopeStep_free (as : List Action) (h : ∀ a ∈ as, a.isScope = false) :
    ∀ live, as.foldl scopeStep live = live := by
  induction as with
  | nil => intro live; rfl
  | cons a rest ih =>
    intro live
    rw [List.foldl_cons, scopeStep_of_not_scope live a (h a (List.mem_cons_self _ _))]
    exact ih (fun b hb => h b (List.mem_cons_of_mem _ hb)) live

theorem peakLive_free (as : List Action) (h : ∀ a ∈ as, a.isScope = false) :
    ∀ live, peakLive live as = live.length := by
  induction as with
  | nil => intro live; rfl
  | cons a rest ih =>
    intro live
    rw [peakLive, scopeStep_of_not_scope live a (h a (List.mem_cons_self _ _)),
      ih (fun b hb => h b (List.mem_cons_of_mem _ hb)) live]
    exact max_self _

theorem scopesMade_free (as : List Action) (h : ∀ a ∈ as, a.isScope = false) :
    scopesMade as = [] := by
  induction as with
  | nil => rfl
  | cons a rest ih =>
    have ha := h a (List.mem_cons_self _ _)
    have hrest := ih (fun b hb => h b (List.mem_cons_of_mem _ hb))
    unfold scopesMade at hrest ⊢
    cases a <;> simp_all [Action.isScope]

theorem length_le_peakLive (t : List Action) : ∀ live, live.length ≤ peakLive live t := by
  cases t with
  | nil => intro live; exact le_refl _
  | cons a rest => intro live; exact le_max_left _ _

theorem peakLive_append (s t : List Action) :
    ∀ live, peakLive live (s ++ t) =
      max (peakLive live s) (peakLive (s.foldl scopeStep live) t) := by
  induction s with
  | nil =>
    intro live
    simp only [List.nil_append, List.foldl_nil, peakLive]
    exact (max_eq_right (length_le_peakLive t live)).symm
  | cons a rest ih =>
    intro live
    rw [List.cons_append, List.foldl_cons, peakLive, peakLive, ih, max_assoc]

/-- The live scopes after any initial part of the actions are at most the
peak. -/
theorem length_foldl_le_peakLive (t₁ t₂ : List Action) :
    ∀ live, (t₁.foldl scopeStep live).length ≤ peakLive live (t₁ ++ t₂) := by
  induction t₁ with
  | nil => intro live; exact length_le_peakLive t₂ live
  | cons a rest ih =>
    intro live
    rw [List.cons_append, List.foldl_cons, peakLive]
    exact le_trans (ih (scopeStep live a)) (le_max_right _ _)

theorem liveScopes_append (s t : List Action) :
    liveScopes (s ++ t) = t.foldl scopeStep (liveScopes s) := by
  simp [liveScopes, List.foldl_append]

theorem scopesMade_append (s t : List Action) :
    scopesMade (s ++ t) = scopesMade s ++ scopesMade t := by
  simp [scopesMade, List.filterMap_append]

theorem removePorts_free (tracker : Nat → Option GoError) (ports : List ServicePort) :
    ∀ i, ∀ a ∈ removePorts tracker i ports, a.isScope = false := by
  induction ports with
  | nil => intro i a ha; simp [removePorts] at ha
  | cons port rest ih =>
    intro i a ha
    simp only [removePorts, List.mem_cons] at ha
    rcases ha with h | h | h
    · rw [h]; rfl
    · rw [h]; cases tracker i <;> rfl
    · exact ih (i + 1) a h

theorem addPorts_free (tracker : Nat → Option GoError) (ports : List ServicePort) :
    ∀ i, ∀ a ∈ addPorts tracker i ports, a.isScope = false := by
  induction ports with
  | nil => intro i a ha; simp [addPorts] at ha
  | cons port rest ih =>
    intro i a ha
    simp only [addPorts, List.mem_cons] at ha
    rcases ha with h | h | h
    · rw [h]; rfl
    · rw [h]; cases tracker i <;> rfl
    · exact ih (i + 1) a h

/-- What a pass does to the scopes: nothing; or, when the run ends, the cancel
of the current scope by the deferred closure; or, on a stream error, the
cancel of the current scope followed by the making of the next one. -/
theorem iterate_scopes (configPath : String) (w : World) (m : Machine)
    (hrun : m.status = Status.running) :
    (∃ issued : List Action, (∀ a ∈ issued, a.isScope = false) ∧
      (iterate configPath m w).trace = m.trace ++ issued ∧
      (iterate configPath m w).status = Status.running ∧
      (iterate configPath m w).watchCancel = m.watchCancel ∧
      (iterate configPath m w).watchContext = m.watchContext ∧
      (iterate configPath m w).nextScope = m.nextScope) ∨
    (∃ issued : List Action, (∀ a ∈ issued, a.isScope = false) ∧
      (iterate configPath m w).trace =
        (m.trace ++ issued) ++ [Action.watchCancel m.watchCancel] ∧
      (iterate configPath m w).status ≠ Status.running ∧
      (iterate configPath m w).watchCancel = m.watchCancel ∧
      (iterate configPath m w).watchContext = m.watchContext ∧
      (iterate configPath m w).nextScope = m.nextScope) ∨
    (∃ issued : List Action, (∀ a ∈ issued, a.isScope = false) ∧
      (iterate configPath m w).trace =
        (m.trace ++ issued) ++
          [Action.watchCancel m.watchCancel, Action.withCancel m.nextScope, Action.sleep] ∧
      (iterate configPath m w).status = Status.running ∧
      (iterate configPath m w).watchCancel = m.nextScope ∧
      (iterate configPath m w).watchContext = m.nextScope ∧
      (iterate configPath m w).nextScope = m.nextScope + 1) := by
  rw [iterate_running configPath w m hrun]
  cases hst : m.state with
  | stateNoConfig =>
    rw [loopBody_noConfig configPath w m hst]
    cases hc : (getClientConfig configPath w.clientConfig).2 with
    | none =>
      left
      refine ⟨[Action.getClientConfig configPath true,
        Action.log Level.debug "kubernetes: loaded kubeconfig %s"], ?_, ?_, ?_, ?_, ?_, ?_⟩ <;>
        simp [Action.isScope, hrun]
    | some err =>
      by_cases hne : errorsIsNotExist err = true
      · left
        refine ⟨[Action.getClientConfig configPath false,
          Action.log Level.debug "kubernetes: failed to read kubeconfig", Action.sleep],
          ?_, ?_, ?_, ?_, ?_, ?_⟩ <;>
          simp [Action.isScope, hrun, hne]
      · right; left
        refine ⟨[Action.getClientConfig configPath false,
          Action.log Level.debug "kubernetes: failed to read kubeconfig"],
          ?_, ?_, ?_, ?_, ?_, ?_⟩ <;>
          simp [Action.isScope, hne]
  | stateDisconnected =>
    rw [loopBody_disconnected configPath w m hst]
    cases hn : w.newForConfig.2 with
    | some err =>
      right; left
      refine ⟨[Action.newForConfig m.config false,
        Action.log Level.error "failed to load kubeconfig"], ?_, ?_, ?_, ?_, ?_, ?_⟩ <;>
        simp [Action.isScope]
    | none =>
      cases hw : w.watchServices with
      | none =>
        left
        refine ⟨[Action.newForConfig m.config true,
          Action.watchServices m.watchContext w.newForConfig.1 true,
          Action.log Level.debug "watching kubernetes services"], ?_, ?_, ?_, ?_, ?_, ?_⟩ <;>
          simp [Action.isScope, hrun]
      | some err =>
        right; left
        cases ha : errorsAsTimeout err with
        | none =>
          refine ⟨[Action.newForConfig m.config true,
            Action.watchServices m.watchContext w.newForConfig.1 false],
            ?_, ?_, ?_, ?_, ?_, ?_⟩ <;>
            simp [Action.isScope, ha]
        | some n =>
          refine ⟨[Action.newForConfig m.config true,
            Action.watchServices m.watchContext w.newForConfig.1 false],
            ?_, ?_, ?_, ?_, ?_, ?_⟩ <;>
            simp [Action.isScope, ha]
  | stateConnected =>
    left
    refine ⟨[], by simp, ?_, ?_, ?_, ?_, ?_⟩ <;> (unfold loopBody; simp [hst, hrun])
  | stateWatching =>
    cases hr : w.recv with
    | errorCh err =>
      right; right
      rw [loopBody_streamError configPath w m err hst hr]
      refine ⟨[Action.log Level.debug "kubernetes: got error, rolling back"],
        ?_, ?_, ?_, ?_, ?_, ?_⟩ <;>
        simp [Action.isScope, hrun]
    | eventCh ev =>
      left
      by_cases hty : ev.service.Spec.Type_ = ServiceTypeNodePort
      · rw [loopBody_nodePort configPath w m ev hst hr hty]
        refine ⟨_, ?_, rfl, hrun, rfl, rfl, rfl⟩
        cases ev.deleted
        · exact addPorts_free w.tracker ev.service.Spec.Ports 0
        · exact removePorts_free w.tracker ev.service.Spec.Ports 0
      · rw [loopBody_notNodePort configPath w m ev hst hr hty]
        refine ⟨[Action.log Level.debug "kubernetes service: not node port %s/%s"],
          ?_, ?_, ?_, ?_, ?_, ?_⟩ <;>
          simp [Action.isScope, hrun, Machine.emit]

theorem scopesOK_start : ScopesOK start where
  same := rfl
  peak := by decide
  live := fun _ => rfl
  done := fun h => absurd rfl h
  made := rfl

theorem scopesOK_iterate (configPath : String) (w : World) (m : Machine) (h : ScopesOK m) :
    ScopesOK (iterate configPath m w) := by
  by_cases hrun : m.status = Status.running
  · have hlive := h.live hrun
    have hfold : List.foldl scopeStep [] m.trace = [m.watchCancel] := hlive
    rcases iterate_scopes configPath w m hrun with
      ⟨issued, hfree, ht, hs, hc, hx, hn⟩ | ⟨issued, hfree, ht, hs, hc, hx, hn⟩ |
      ⟨issued, hfree, ht, hs, hc, hx, hn⟩
    · refine ⟨by rw [hx, hc]; exact h.same, ?_, ?_, fun hne => absurd hs hne, ?_⟩
      · rw [ht, peakLive_append, hfold, peakLive_free issued hfree]
        exact max_le h.peak (le_refl _)
      · intro _
        rw [ht, liveScopes_append, foldl_scopeStep_free issued hfree, hlive, hc]
      · rw [ht, scopesMade_append, scopesMade_free issued hfree, hn, List.append_nil]
        exact h.made
    · refine ⟨by rw [hx, hc]; exact h.same, ?_, fun hr => absurd hr hs, ?_, ?_⟩
      · rw [ht, peakLive_append, peakLive_append, hfold, List.foldl_append, hfold,
          peakLive_free issued hfree, foldl_scopeStep_free issued hfree]
        simp only [peakLive, scopeStep]
        simp
        exact h.peak
      · intro _
        rw [ht, liveScopes_append, liveScopes_append, foldl_scopeStep_free issued hfree, hlive]
        simp [scopeStep]
      · rw [ht, scopesMade_append, scopesMade_append, scopesMade_free issued hfree, hn,
          List.append_nil]
        simpa [scopesMade] using h.made
    · refine ⟨by rw [hx, hc], ?_, ?_, fun hne => absurd hs hne, ?_⟩
      · rw [ht, peakLive_append, peakLive_append, hfold, List.foldl_append, hfold,
          peakLive_free issued hfree, foldl_scopeStep_free issued hfree]
        simp only [peakLive, scopeStep]
        simp
        exact h.peak
      · intro _
        rw [ht, liveScopes_append, liveScopes_append, foldl_scopeStep_free issued hfree, hlive,
          hc]
        simp [scopeStep]
      · rw [ht, scopesMade_append, scopesMade_append, scopesMade_free issued hfree, hn,
          List.append_nil, List.range_succ, ← h.made]
        simp [scopesMade]
  · have hstep : iterate configPath m w = m := by
      unfold iterate
      split
      · next h' => exact absurd h' hrun
      · rfl
    rw [hstep]
    exact h

theorem scopesOK_runFrom (configPath : String) (ws : List World) :
    ∀ m : Machine, ScopesOK m → ScopesOK (runFrom configPath m ws) := by
  induction ws with
  | nil => intro m h; exact h
  | cons w rest ih =>
    intro m h
    rw [runFrom_cons]
    exact ih _ (scopesOK_iterate configPath w m h)

/-- C10: over every run of `WatchForNodePortServices`, at every moment of the
trace at most one scope made by the run is not yet cancelled, and while the
run is in the loop that scope is the current one; on a stream error the
current scope is cancelled before its replacement is made, no scope being
live in between; once the run has ended, by a return or by a panic, no scope
made by the run is left un-cancelled; and no scope is made twice. -/
theorem watch_scopes (configPath : String) (ws : List World) :
    (∀ t₁ t₂ : List Action, (WatchForNodePortServices configPath ws).trace = t₁ ++ t₂ →
      (liveScopes t₁).length ≤ 1) ∧
    ((WatchForNodePortServices configPath ws).status = Status.running →
      liveScopes (WatchForNodePortServices configPath ws).trace =
        [(WatchForNodePortServices configPath ws).watchCancel] ∧
      (WatchForNodePortServices configPath ws).watchContext =
        (WatchForNodePortServices configPath ws).watchCancel) ∧
    (∀ (w : World) (err : Option GoError),
      (WatchForNodePortServices configPath ws).status = Status.running →
      (WatchForNodePortServices configPath ws).state = watcherState.stateWatching →
      w.recv = Recv.errorCh err →
      ∃ before : List Action,
        (iterate configPath (WatchForNodePortServices configPath ws) w).trace =
          before ++ [Action.watchCancel (WatchForNodePortServices configPath ws).watchCancel,
            Action.withCancel (WatchForNodePortServices configPath ws).nextScope,
            Action.sleep] ∧
        liveScopes before = [(WatchForNodePortServices configPath ws).watchCancel] ∧
        liveScopes (before ++
          [Action.watchCancel (WatchForNodePortServices configPath ws).watchCancel]) = [] ∧
        liveScopes (iterate configPath (WatchForNodePortServices configPath ws) w).trace =
          [(iterate configPath (WatchForNodePortServices configPath ws) w).watchCancel]) ∧
    ((WatchForNodePortServices configPath ws).status ≠ Status.running →
      liveScopes (WatchForNodePortServices configPath ws).trace = []) ∧
    (scopesMade (WatchForNodePortServices configPath ws).trace).Nodup := by
  have hok : ScopesOK (WatchForNodePortServices configPath ws) :=
    scopesOK_runFrom configPath ws start scopesOK_start
  refine ⟨?_, fun hrun => ⟨hok.live hrun, hok.same⟩, ?_, hok.done, ?_⟩
  · intro t₁ t₂ ht
    have h := length_foldl_le_peakLive t₁ t₂ []
    rw [← ht] at h
    exact le_trans h hok.peak
  · intro w err hrun hst hrecv
    have hstep := loopBody_streamError configPath w _ err hst hrecv
    rw [← iterate_running configPath w _ hrun] at hstep
    have hnext := (scopesOK_iterate configPath w _ hok).live (by rw [hstep]; exact hrun)
    have hlive := hok.live hrun
    refine ⟨(WatchForNodePortServices configPath ws).trace ++
      [Action.log Level.debug "kubernetes: got error, rolling back"], ?_, ?_, ?_, hnext⟩
    · rw [hstep]
      simp
    · rw [liveScopes_append, hlive]
      rfl
    · rw [liveScopes_append, liveScopes_append, hlive]
      simp [scopeStep]
  · rw [hok.made]
    exact List.nodup_range _

/-- C10 at a run that watches, gets a stream error, reloads the
configuration and ends on a watch-open failure: the stream error cancels the
scope 0 before the scope 1 is made, and the return cancels the scope 1. -/
theorem watch_scopes_witness :
    (∃ before : List Action,
      (iterate "kubeconfig"
        (WatchForNodePortServices "kubeconfig" [worldWithError none, worldWithError none])
        (worldWithError (some streamClosed))).trace =
        before ++ [Action.watchCancel
            (WatchForNodePortServices "kubeconfig"
              [worldWithError none, worldWithError none]).watchCancel,
          Action.withCancel
            (WatchForNodePortServices "kubeconfig"
              [worldWithError none, worldWithError none]).nextScope,
          Action.sleep] ∧
      liveScopes before =
        [(WatchForNodePortServices "kubeconfig"
          [worldWithError none, worldWithError none]).watchCancel] ∧
      liveScopes (before ++
        [Action.watchCancel (WatchForNodePortServices "kubeconfig"
          [worldWithError none, worldWithError none]).watchCancel]) = [] ∧
      liveScopes (iterate "kubeconfig"
        (WatchForNodePortServices "kubeconfig" [worldWithError none, worldWithError none])
        (worldWithError (some streamClosed))).trace =
        [(iterate "kubeconfig"
          (WatchForNodePortServices "kubeconfig" [worldWithError none, worldWithError none])
          (worldWithError (some streamClosed))).watchCancel]) ∧
    liveScopes (WatchForNodePortServices "kubeconfig"
      [worldWithError none, worldWithError none, worldWithError (some streamClosed),
       worldWithError none, worldWatchFails dialTimeout]).trace = [] :=
  ⟨(watch_scopes "kubeconfig" [worldWithError none, worldWithError none]).2.2.1
      (worldWithError (some streamClosed)) (some streamClosed) rfl rfl rfl,
    (watch_scopes "kubeconfig"
      [worldWithError none, worldWithError none, worldWithError (some streamClosed),
       worldWithError none, worldWatchFails dialTimeout]).2.2.2.1 (by decide)⟩

/-- The trace of the run of the witness of C10. -/
theorem sample_scope_trace :
    (WatchForNodePortServices "kubeconfig"
      [worldWithError none, worldWithError none, worldWithError (some streamClosed),
       worldWithError none, worldWatchFails dialTimeout]).trace =
      [Action.withCancel 0,
       Action.getClientConfig "kubeconfig" true,
       Action.log Level.debug "kubernetes: loaded kubeconfig %s",
       Action.newForConfig (some { id := 1 }) true,
       Action.watchServices 0 (some { id := 1 }) true,
       Action.log Level.debug "watching kubernetes services",
       Action.log Level.debug "kubernetes: got error, rolling back",
       Action.watchCancel 0,
       Action.withCancel 1,
       Action.sleep,
       Action.getClientConfig "kubeconfig" true,
       Action.log Level.debug "kubernetes: loaded kubeconfig %s",
       Action.newForConfig (some { id := 1 }) true,
       Action.watchServices 1 (some { id := 1 }) false,
       Action.watchCancel 1] := by
  decide

/-! ## The requested listeners -/

/-- C4 fails on the code.  A service is reported with the node port 30080
and then, not deleted, with the node port 30081: the loop has requested both
(127.0.0.1, 30080) and (127.0.0.1, 30081) and removed neither, while the set
of the specification, made of the latest event of the service, holds only
(127.0.0.1, 30081).  The same happens when the two events are separated by a
stream error and the restart that follows it. -/
theorem requested_keys_stale :
    watching.status = Status.running ∧
    watching.state = watcherState.stateWatching ∧
    trackerCalls watching.trace = [] ∧
    (IPv4 127 0 0 1, 30080) ∈ requested (trackerCalls (runFrom "kubeconfig" watching
      [worldWithEvent { service := mkService "web" "NodePort" [30080], deleted := false }
         (fun _ => none),
       worldWithEvent { service := mkService "web" "NodePort" [30081], deleted := false }
         (fun _ => none)]).trace) ∧
    (IPv4 127 0 0 1, 30080) ∉ liveKeys
      [{ service := mkService "web" "NodePort" [30080], deleted := false },
       { service := mkService "web" "NodePort" [30081], deleted := false }] ∧
    requested (trackerCalls (runFrom "kubeconfig" watching
      [worldWithEvent { service := mkService "web" "NodePort" [30080], deleted := false }
         (fun _ => none),
       worldWithEvent { service := mkService "web" "NodePort" [30081], deleted := false }
         (fun _ => none)]).trace) ≠
      liveKeys
        [{ service := mkService "web" "NodePort" [30080], deleted := false },
         { service := mkService "web" "NodePort" [30081], deleted := false }] ∧
    (runFrom "kubeconfig" watching
      [worldWithEvent { service := mkService "web" "NodePort" [30080], deleted := false }
         (fun _ => none),
       worldWithError (some streamClosed), worldWithError none, worldWithError none,
       worldWithEvent { service := mkService "web" "NodePort" [30081], deleted := false }
         (fun _ => none)]).state = watcherState.stateWatching ∧
    requested (trackerCalls (runFrom "kubeconfig" watching
      [worldWithEvent { service := mkService "web" "NodePort" [30080], deleted := false }
         (fun _ => none),
       worldWithError (some streamClosed), worldWithError none, worldWithError none,
       worldWithEvent { service := mkService "web" "NodePort" [30081], deleted := false }
         (fun _ => none)]).trace) =
      {(IPv4 127 0 0 1, 30080), (IPv4 127 0 0 1, 30081)} ∧
    liveKeys
      [{ service := mkService "web" "NodePort" [30080], deleted := false },
       { service := mkService "web" "NodePort" [30081], deleted := false }] =
      {(IPv4 127 0 0 1, 30081)} := by
  decide

theorem trackerCalls_event (tracker : Nat → Option GoError) (e : event) :
    trackerCalls (if e.deleted then removePorts tracker 0 e.service.Spec.Ports
      else addPorts tracker 0 e.service.Spec.Ports) = callsOf e := by
  unfold callsOf
  cases e.deleted
  · simpa using trackerCalls_addPorts tracker e.service.Spec.Ports 0
  · simpa using trackerCalls_removePorts tracker e.service.Spec.Ports 0

/-- A run in the watching state through events of NodePort services stays in
the watching state and issues the calls of the events, one event after the
other. -/
theorem runFrom_events (configPath : String) (evs : List event) :
    ∀ (ws : List World) (m : Machine), m.status = Status.running →
      m.state = watcherState.stateWatching →
      ws.map (fun w => w.recv) = evs.map Recv.eventCh →
      (∀ e ∈ evs, e.service.Spec.Type_ = ServiceTypeNodePort) →
      (runFrom configPath m ws).status = Status.running ∧
      (runFrom configPath m ws).state = watcherState.stateWatching ∧
      trackerCalls (runFrom configPath m ws).trace =
        trackerCalls m.trace ++ evs.flatMap callsOf := by
  induction evs with
  | nil =>
    intro ws m hrun hst hrecv _
    have hws : ws = [] := by simpa using hrecv
    subst hws
    exact ⟨hrun, hst, by simp [runFrom]⟩
  | cons e rest ih =>
    intro ws m hrun hst hrecv hty
    cases ws with
    | nil => simp at hrecv
    | cons w ws' =>
      simp only [List.map_cons, List.cons.injEq] at hrecv
      have hstep : iterate configPath m w =
          m.emit (if e.deleted then removePorts w.tracker 0 e.service.Spec.Ports
            else addPorts w.tracker 0 e.service.Spec.Ports) := by
        rw [iterate_running configPath w m hrun]
        exact loopBody_nodePort configPath w m e hst hrecv.1 (hty e (List.mem_cons_self _ _))
      have h := ih ws' (iterate configPath m w) (by rw [hstep]; exact hrun)
        (by rw [hstep]; exact hst) hrecv.2 (fun e' he' => hty e' (List.mem_cons_of_mem _ he'))
      rw [runFrom_cons]
      refine ⟨h.1, h.2.1, ?_⟩
      rw [h.2.2, hstep]
      simp only [Machine.emit, trackerCalls_append, trackerCalls_event, List.flatMap_cons,
        List.append_assoc]

theorem mem_foldl_add (k : IP × Int) (ports : List ServicePort) :
    ∀ keys : Finset (IP × Int),
      k ∈ (ports.map (fun port => TrackerCall.Add localhost port.NodePort)).foldl
          requestStep keys ↔
        k ∈ keys ∨ k.1 = localhost ∧ k.2 ∈ ports.map (fun port => port.NodePort) := by
  induction ports with
  | nil => intro keys; simp
  | cons port rest ih =>
    intro keys
    rw [List.map_cons, List.foldl_cons, ih]
    simp only [requestStep, Finset.mem_insert, List.map_cons, List.mem_cons]
    constructor
    · rintro ((h | h) | ⟨h₁, h₂⟩)
      · right; rw [h]; exact ⟨rfl, Or.inl rfl⟩
      · left; exact h
      · right; exact ⟨h₁, Or.inr h₂⟩
    · rintro (h | ⟨h₁, h₂ | h₂⟩)
      · left; right; exact h
      · left; left; exact Prod.ext h₁ h₂
      · right; exact ⟨h₁, h₂⟩

theorem mem_foldl_remove (k : IP × Int) (ports : List ServicePort) :
    ∀ keys : Finset (IP × Int),
      k ∈ (ports.map (fun port => TrackerCall.Remove localhost port.NodePort)).foldl
          requestStep keys ↔
        k ∈ keys ∧ ¬(k.1 = localhost ∧ k.2 ∈ ports.map (fun port => port.NodePort)) := by
  induction ports with
  | nil => intro keys; simp
  | cons port rest ih =>
    intro keys
    rw [List.map_cons, List.foldl_cons, ih]
    simp only [requestStep, Finset.mem_erase, List.map_cons, List.mem_cons]
    constructor
    · rintro ⟨⟨hne, hk⟩, hrest⟩
      refine ⟨hk, ?_⟩
      rintro ⟨h₁, h₂ | h₂⟩
      · exact hne (Prod.ext h₁ h₂)
      · exact hrest ⟨h₁, h₂⟩
    · rintro ⟨hk, hnot⟩
      refine ⟨⟨?_, hk⟩, ?_⟩
      · intro h
        exact hnot ⟨by rw [h], Or.inl (by rw [h])⟩
      · rintro ⟨h₁, h₂⟩
        exact hnot ⟨h₁, Or.inr h₂⟩

/-- The keys requested after the calls of one event. -/
theorem mem_requestedFrom_callsOf (k : IP × Int) (e : event) (keys : Finset (IP × Int)) :
    k ∈ requestedFrom keys (callsOf e) ↔
      if k.1 = localhost ∧ k.2 ∈ nodePorts e then e.deleted = false else k ∈ keys := by
  unfold requestedFrom callsOf nodePorts
  cases hd : e.deleted
  · simp only [Bool.false_eq_true, if_false]
    rw [mem_foldl_add]
    by_cases h : k.1 = localhost ∧ k.2 ∈ e.service.Spec.Ports.map (fun port => port.NodePort)
    · rw [if_pos h]
      exact ⟨fun _ => trivial, fun _ => Or.inr h⟩
    · rw [if_neg h]
      exact ⟨fun hk => hk.resolve_right h, Or.inl⟩
  · simp only [if_true]
    rw [mem_foldl_remove]
    by_cases h : k.1 = localhost ∧ k.2 ∈ e.service.Spec.Ports.map (fun port => port.NodePort)
    · rw [if_pos h]
      exact ⟨fun hk => absurd h hk.2, fun hk => absurd hk (by decide)⟩
    · rw [if_neg h]
      exact ⟨fun hk => hk.1, fun hk => ⟨hk, h⟩⟩

/-- The keys requested after the calls of a sequence of events: a key of
127.0.0.1 is requested when the latest event that lists its port is not a
deletion; a key no event lists stays as it was. -/
theorem mem_requestedFrom_events (ip : IP) (port : Int) (evs : List event) :
    ∀ keys : Finset (IP × Int),
      (ip, port) ∈ requestedFrom keys (evs.flatMap callsOf) ↔
        match (if ip = localhost then lastMention port evs else none) with
        | some d => d = false
        | none => (ip, port) ∈ keys := by
  induction evs with
  | nil => intro keys; simp [requestedFrom, lastMention]
  | cons e rest ih =>
    intro keys
    have hsplit : requestedFrom keys ((e :: rest).flatMap callsOf) =
        requestedFrom (requestedFrom keys (callsOf e)) (rest.flatMap callsOf) := by
      simp [requestedFrom, List.foldl_append]
    rw [hsplit, ih, mem_requestedFrom_callsOf]
    by_cases hip : ip = localhost
    · simp only [hip, if_true, true_and, lastMention]
      cases hl : lastMention port rest with
      | some d => simp
      | none =>
        by_cases hp : port ∈ nodePorts e
        · simp [hp]
        · simp [hp]
    · simp [hip]

theorem lastMention_eq_none (port : Int) (evs : List event) :
    lastMention port evs = none ↔ ∀ e ∈ evs, port ∉ nodePorts e := by
  induction evs with
  | nil => simp [lastMention]
  | cons e rest ih =>
    simp only [lastMention, List.mem_cons, forall_eq_or_imp]
    cases hl : lastMention port rest with
    | some d =>
      have hno : ¬ ∀ e' ∈ rest, port ∉ nodePorts e' := fun h => by
        rw [ih.mpr h] at hl
        exact Option.noConfusion hl
      simp only [false_iff, not_and, reduceCtorEq]
      exact fun _ => hno
    | none =>
      have hall := ih.mp hl
      by_cases hp : port ∈ nodePorts e
      · simp [hp]
      · simp only [hp, if_false, true_iff, not_false_eq_true, true_and]
        exact hall

theorem mem_liveKeys (k : IP × Int) (evs : List event) :
    k ∈ liveKeys evs ↔
      k.1 = IPv4 127 0 0 1 ∧ ∃ e ∈ latestEvents evs, e.deleted = false ∧ k.2 ∈ nodePorts e := by
  unfold liveKeys
  simp only [List.mem_toFinset, List.mem_flatMap, List.mem_filter, List.mem_map,
    Bool.not_eq_true']
  constructor
  · rintro ⟨e, ⟨he, hd⟩, port, hp, rfl⟩
    exact ⟨rfl, e, he, hd, hp⟩
  · rintro ⟨hip, e, he, hd, hp⟩
    exact ⟨e, ⟨he, hd⟩, k.2, hp, Prod.ext hip.symm rfl⟩

/-- In an orderly sequence a port is listed by the latest event of a live
service exactly when the latest event that lists it is not a deletion. -/
theorem orderly_latest (port : Int) (evs : List event) :
    orderly evs = true →
      ((∃ e ∈ latestEvents evs, e.deleted = false ∧ port ∈ nodePorts e) ↔
        lastMention port evs = some false) := by
  induction evs with
  | nil => intro _; simp [latestEvents, lastMention]
  | cons e rest ih =>
    intro hord
    simp only [orderly, Bool.and_eq_true, Bool.or_eq_true, List.all_eq_true, List.any_eq_true,
      decide_eq_true_eq, Bool.not_eq_true'] at hord
    obtain ⟨⟨hshare, hagain⟩, hord'⟩ := hord
    have hrest := ih hord'
    by_cases hany : rest.any (fun e' => decide (serviceOf e' = serviceOf e)) = true
    · have hlate : latestEvents (e :: rest) = latestEvents rest := by
        simp only [latestEvents, hany, if_true]
      rw [hlate, hrest]
      simp only [lastMention]
      cases hl : lastMention port rest with
      | some d => simp
      | none =>
        have hnone := (lastMention_eq_none port rest).mp hl
        by_cases hp : port ∈ nodePorts e
        · have hdel : e.deleted = true := by
            rcases hagain with (hd | hno) | hall
            · exact hd
            · rw [hno] at hany
              exact absurd hany (by decide)
            · obtain ⟨e', he', _, hp'⟩ := hall port hp
              exact absurd hp' (hnone e' he')
          simp [hp, hdel]
        · simp [hp]
    · have hlate : latestEvents (e :: rest) = e :: latestEvents rest := by
        simp only [latestEvents, hany, if_false, Bool.false_eq_true]
      rw [hlate]
      simp only [List.mem_cons, exists_eq_or_imp, hrest, lastMention]
      cases hl : lastMention port rest with
      | some d =>
        have hp : port ∉ nodePorts e := by
          intro hp
          have hsome : ¬ ∀ e' ∈ rest, port ∉ nodePorts e' := fun h => by
            rw [(lastMention_eq_none port rest).mpr h] at hl
            exact Option.noConfusion hl
          apply hsome
          intro e' he' hp'
          apply hany
          exact List.any_eq_true.mpr ⟨e', he', decide_eq_true (hshare e' he' port hp hp')⟩
        simp [hp]
      | none =>
        by_cases hp : port ∈ nodePorts e
        · simp [hp]
        · simp [hp]

/-- C4, amended: after a run in the watching state through any sequence of
events of NodePort services, from a machine that has made no tracker call,
the requested keys (added and not removed afterwards) are exactly the pairs
(127.0.0.1, nodePort) for which the latest event of the sequence that lists
the node port is not a deletion; when the sequence is orderly (no node port
is listed later by another service, and the node ports of an event that is
neither a deletion nor the latest event of its service are listed again by a
later event of the service), that is the set of the specification: the pairs
over all ports of the latest event of every service whose latest event is
not a deletion. -/
theorem requested_keys (configPath : String) (m : Machine) (ws : List World)
    (evs : List event)
    (hrun : m.status = Status.running) (hst : m.state = watcherState.stateWatching)
    (hnone : trackerCalls m.trace = [])
    (hrecv : ws.map (fun w => w.recv) = evs.map Recv.eventCh)
    (hty : ∀ e ∈ evs, e.service.Spec.Type_ = ServiceTypeNodePort) :
    (runFrom configPath m ws).status = Status.running ∧
    (runFrom configPath m ws).state = watcherState.stateWatching ∧
    (∀ (ip : IP) (port : Int),
      (ip, port) ∈ requested (trackerCalls (runFrom configPath m ws).trace) ↔
        ip = IPv4 127 0 0 1 ∧ lastMention port evs = some false) ∧
    (orderly evs = true →
      requested (trackerCalls (runFrom configPath m ws).trace) = liveKeys evs) := by
  have hrunF := runFrom_events configPath evs ws m hrun hst hrecv hty
  have hcalls : trackerCalls (runFrom configPath m ws).trace = evs.flatMap callsOf := by
    rw [hrunF.2.2, hnone, List.nil_append]
  have hport : ∀ (ip : IP) (port : Int),
      (ip, port) ∈ requested (trackerCalls (runFrom configPath m ws).trace) ↔
        ip = IPv4 127 0 0 1 ∧ lastMention port evs = some false := by
    intro ip port
    rw [hcalls]
    unfold requested
    rw [mem_requestedFrom_events]
    by_cases hip : ip = localhost
    · have hip' : ip = IPv4 127 0 0 1 := hip
      simp only [hip, if_true]
      cases hl : lastMention port evs with
      | some d => simp [localhost]
      | none => simp
    · have hip' : ¬ ip = IPv4 127 0 0 1 := hip
      simp [hip, hip']
  refine ⟨hrunF.1, hrunF.2.1, hport, ?_⟩
  intro hstab
  ext ⟨ip, port⟩
  rw [hport, mem_liveKeys, orderly_latest port evs hstab]

/-- C4, amended, at `sampleEvents`: the requested keys are the set of the
specification, and (127.0.0.1, 30090) is requested because the latest event
that lists 30090 is not a deletion. -/
theorem requested_keys_witness :
    requested (trackerCalls (runFrom "kubeconfig" watching sampleWorlds).trace) =
      liveKeys sampleEvents ∧
    ((IPv4 127 0 0 1, 30090) ∈
        requested (trackerCalls (runFrom "kubeconfig" watching sampleWorlds).trace) ↔
      IPv4 127 0 0 1 = IPv4 127 0 0 1 ∧ lastMention 30090 sampleEvents = some false) :=
  have h := requested_keys "kubeconfig" watching sampleWorlds sampleEvents rfl rfl rfl rfl
    (by decide)
  ⟨h.2.2.2 (by decide), h.2.2.1 (IPv4 127 0 0 1) 30090⟩

/-- The sequence on which C4 fails is not orderly: the node port 30080 of
the first event of the service is not listed again. -/
theorem sample_not_orderly :
    orderly
      [{ service := mkService "web" "NodePort" [30080], deleted := false },
       { service := mkService "web" "NodePort" [30081], deleted := false }] = false ∧
    orderly sampleEvents = true := by
  decide

/-- The set the witness of C4 is about. -/
theorem sample_requested :
    requested (trackerCalls (runFrom "kubeconfig" watching sampleWorlds).trace) =
      {(IPv4 127 0 0 1, 30090), (IPv4 127 0 0 1, 30081)} ∧
    trackerCalls (runFrom "kubeconfig" watching sampleWorlds).trace =
      [TrackerCall.Add localhost 30080, TrackerCall.Add localhost 30090,
       TrackerCall.Remove localhost 30080, TrackerCall.Add localhost 30081] := by
  decide

end Kube
